import Mathlib

/-!
Shallow embedding of the CentralCompras REST API (six Express route modules
backed by per-entity JSON array files) and proofs about its CRUD handlers.

Modelling conventions, used uniformly below:

* A request-body field that may be absent is an `Option`; `none` is JS
  `undefined`.
* JS numbers arriving through the JSON body parser are finite, so a numeric
  input is either a number (`NumIn.jnum`) or a string together with the
  results of the built-in `Number.parseFloat` / `Number.parseInt` on it
  (`NumIn.jstr`), abstracting those two built-in parsers.
* A date string is carried together with the result of `new Date(str)`
  (`DateStr`): `none` when the string does not parse, otherwise the
  timestamp as an integer.  `formatSQLLike` produces a string that
  re-parses to the same timestamp; the second-granularity truncation and
  timezone round-trip of the real formatter are identified away, which no
  claim below depends on.
* Numbers are rationals; `Math.round` is `⌊x + 1/2⌋`, exactly the JS
  behaviour on all finite inputs.
* The pseudo-random `randomUUID()` and the clock `new Date()` are passed to
  the handlers as explicit arguments; `bcrypt.hash` (an external library)
  is passed as an abstract function argument.
* Each handler returns the HTTP status code, the JSON body (when a record
  is returned) and the persisted collection: the `writeAll` call happens
  only on the success path, so on every early `return` the persisted
  collection is the input one, even when the in-memory array was already
  mutated.
-/

namespace CentralCompras

/-- A numeric request-body value: a finite JSON number, or a string carried
together with the results of the JS built-ins `Number.parseFloat` and
`Number.parseInt` on it. -/
inductive NumIn where
  | jnum (q : ℚ)
  | jstr (s : String) (pf : Option ℚ) (pi : Option ℤ)
deriving Repr, DecidableEq

/-- JS `Number.parseFloat` followed by the `Number.isFinite` test: `none`
when the result is `NaN` or infinite. -/
def parseFloatJS : NumIn → Option ℚ
  | .jnum q => some q
  | .jstr _ pf _ => pf

/-- Floor of a rational, written with `Int.fdiv` so that it evaluates
inside the kernel; `ratFloor_eq_floor` below identifies it with `⌊·⌋`. -/
def ratFloor (x : ℚ) : ℤ := x.num.fdiv (x.den : ℤ)

/-- JS `Number.parseInt(v, 10)`: on a number it goes through the decimal
string, truncating toward zero; on a string the carried result is used. -/
def parseIntJS : NumIn → Option ℤ
  | .jnum q => some (if q < 0 then -ratFloor (-q) else ratFloor q)
  | .jstr _ _ pi => pi

/-- JS truthiness of a numeric body value: `0` and `NaN` are falsy, a
string is falsy exactly when empty. -/
def truthyNum : NumIn → Bool
  | .jnum q => q != 0
  | .jstr s _ _ => s != ""

/-- JS truthiness of an optional string field (`undefined` and `""` falsy). -/
def truthyS : Option String → Bool
  | none => false
  | some s => s != ""

/-- JS truthiness of an optional numeric field. -/
def truthyN : Option NumIn → Bool
  | none => false
  | some v => truthyNum v

/-- A date-valued body or record field: the raw string and the result of
`new Date(raw)` (`none` for an invalid date, otherwise the timestamp). -/
structure DateStr where
  raw : String
  val : Option ℤ
deriving Repr, DecidableEq

/-- JS truthiness of an optional date-string field. -/
def truthyD : Option DateStr → Bool
  | none => false
  | some d => d.raw != ""

/-- The `parseDate` helper of the route modules: `new Date(str)` returning
`null` on an invalid date. -/
def parseDate (d : DateStr) : Option ℤ := d.val

/-- The `formatSQLLike` helper: renders a timestamp in the
`YYYY-MM-DD HH:mm:ss` shape; the rendered string re-parses to the same
timestamp in this model. -/
def formatSQLLike (t : ℤ) : DateStr := ⟨"date " ++ toString t, some t⟩

/-- JS `Math.round`: round half toward positive infinity, i.e.
`⌊x + 1/2⌋`.  Written on the numerator and denominator so that it
evaluates inside the kernel; `jsRound_eq_floor` below identifies it with
the floor form. -/
def jsRound (x : ℚ) : ℤ := (2 * x.num + x.den).fdiv (2 * x.den)

/-- The `Math.round(n * 100) / 100` idiom used for prices, amounts and
percentages; `round2_eq_div` below identifies it with that expression. -/
def round2 (n : ℚ) : ℚ := mkRat (jsRound (mkRat (n.num * 100) n.den)) 100

/-- JS `<=` between a `parseDate` result and another: `null` coerces to
`0`, a `Date` to its timestamp. -/
def jsLe (a b : Option ℤ) : Bool := a.getD 0 ≤ b.getD 0

/-- JS `String.prototype.toLowerCase` (ASCII as used by this API). -/
def toLowerJS (s : String) : String := (s.toList.map Char.toLower).asString

/-- Scan for `needle` as a contiguous sub-list of the second argument. -/
def scanFor (needle : List Char) : List Char → Bool
  | [] => needle.isEmpty
  | x :: xs => needle.isPrefixOf (x :: xs) || scanFor needle xs

/-- JS `String.prototype.includes` (substring test). -/
def includesJS (hay needle : String) : Bool := scanFor needle.toList hay.toList

/-- Structural split of a character list at every occurrence of `c`,
mirroring the way the email regular expression cuts the string at `@`. -/
def splitOnChar (c : Char) : List Char → List (List Char)
  | [] => [[]]
  | x :: xs =>
    match splitOnChar c xs with
    | h :: t => if x = c then [] :: h :: t else (x :: h) :: t
    | [] => if x = c then [[], []] else [[x]]

/-- The `isEmail` validator: the regular expression
`/^[^\s@]+@[^\s@]+\.[^\s@]+$/`, i.e. exactly one `@`, no whitespace, a
nonempty local part, and a `.` in the domain with nonempty text on both
sides. -/
def isEmail (s : String) : Bool :=
  match splitOnChar '@' s.toList with
  | [loc, dom] =>
    !loc.isEmpty && loc.all (fun c => !c.isWhitespace) &&
    dom.all (fun c => !c.isWhitespace) &&
    ((dom.drop 1).dropLast).contains '.'
  | _ => false

/-- The `normalizePhone` validator: `(str || '').replace(/\D+/g, '')`. -/
def normalizePhone (s : Option String) : String :=
  ((s.getD "").toList.filter Char.isDigit).asString

/-- Outcome of one request: HTTP status, optional JSON body, and the
collection persisted on disk after the request (`writeAll` runs only on
the success path). -/
structure Res (ρ : Type) (β : Type) where
  status : ℕ
  body : Option β
  db : List ρ
deriving Repr, DecidableEq

/-- Replace the first element satisfying `p` (the JS
`items[items.findIndex(p)] = u` mutation followed by `writeAll(items)`). -/
def setFirst (p : α → Bool) (u : α) : List α → List α
  | [] => []
  | x :: xs => if p x then u :: xs else x :: setFirst p u xs

/-- Remove the first element satisfying `p` (the JS
`items.splice(items.findIndex(p), 1)` mutation). -/
def removeFirst (p : α → Bool) : List α → List α
  | [] => []
  | x :: xs => if p x then xs else x :: removeFirst p xs

/-! ### storeRoutes.js -/

namespace Store

/-- A store record as persisted in `db/store.json`. -/
structure Rec where
  id : String
  store_name : String
  cnpj : String
  address : String
  phone_number : String
  contact_email : String
  status : String
deriving Repr, DecidableEq

/-- The request body accepted by the store POST/PUT handlers. -/
structure Body where
  store_name : Option String
  cnpj : Option String
  address : Option String
  phone_number : Option String
  contact_email : Option String
  status : Option String
deriving Repr, DecidableEq

/-- The store module's `sanitizeStatus`: member of `['on','off']` kept,
anything else (including a missing value) replaced by `'on'`. -/
def sanitizeStatus (st : Option String) : String :=
  match st with
  | some s => if s = "on" || s = "off" then s else "on"
  | none => "on"

/-- `GET /store/:id`. -/
def getById (id : String) (items : List Rec) : Res Rec Rec :=
  match items.find? (fun x => x.id == id) with
  | none => ⟨404, none, items⟩
  | some u => ⟨200, some u, items⟩

/-- `POST /store`. -/
def create (newId : String) (b : Body) (items : List Rec) : Res Rec Rec :=
  if !truthyS b.store_name || !truthyS b.cnpj || !truthyS b.contact_email then
    ⟨400, none, items⟩
  else if !isEmail (b.contact_email.getD "") then
    ⟨400, none, items⟩
  else if items.any (fun x => x.cnpj == b.cnpj.getD "") then
    ⟨409, none, items⟩
  else
    let novo : Rec :=
      { id := newId
        store_name := b.store_name.getD ""
        cnpj := b.cnpj.getD ""
        -- `address || ''` is the identity on strings once `undefined` is gone
        address := b.address.getD ""
        phone_number := normalizePhone b.phone_number
        contact_email := b.contact_email.getD ""
        status := sanitizeStatus b.status }
    ⟨201, some novo, items ++ [novo]⟩

/-- `PUT /store/:id`. -/
def update (id : String) (b : Body) (items : List Rec) : Res Rec Rec :=
  match items.find? (fun x => x.id == id) with
  | none => ⟨404, none, items⟩
  | some old =>
    if truthyS b.contact_email && !isEmail (b.contact_email.getD "") then
      ⟨400, none, items⟩
    else if truthyS b.cnpj &&
        items.any (fun x => x.cnpj == b.cnpj.getD "" && x.id != id) then
      ⟨409, none, items⟩
    else
      let u : Rec :=
        { id := old.id
          store_name := b.store_name.getD old.store_name
          cnpj := b.cnpj.getD old.cnpj
          address := b.address.getD old.address
          phone_number :=
            match b.phone_number with
            | some p => normalizePhone (some p)
            | none => old.phone_number
          contact_email := b.contact_email.getD old.contact_email
          status :=
            match b.status with
            | some s => sanitizeStatus (some s)
            | none => old.status }
      ⟨200, some u, setFirst (fun x => x.id == id) u items⟩

/-- `DELETE /store/:id`. -/
def remove (id : String) (items : List Rec) : Res Rec Rec :=
  match items.find? (fun x => x.id == id) with
  | none => ⟨404, none, items⟩
  | some _ => ⟨204, none, removeFirst (fun x => x.id == id) items⟩

end Store

/-! ### supplierRoutes.js -/

namespace Supplier

/-- A supplier record as persisted in `db/supplier.json`. -/
structure Rec where
  id : String
  supplier_name : String
  supplier_category : String
  contact_email : String
  phone_number : String
  status : String
deriving Repr, DecidableEq

/-- The request body accepted by the supplier POST/PUT handlers. -/
structure Body where
  supplier_name : Option String
  supplier_category : Option String
  contact_email : Option String
  phone_number : Option String
  status : Option String
deriving Repr, DecidableEq

/-- The supplier module's `sanitizeStatus` (same code as the store one). -/
def sanitizeStatus (st : Option String) : String :=
  match st with
  | some s => if s = "on" || s = "off" then s else "on"
  | none => "on"

/-- `GET /supplier/:id`. -/
def getById (id : String) (items : List Rec) : Res Rec Rec :=
  match items.find? (fun x => x.id == id) with
  | none => ⟨404, none, items⟩
  | some u => ⟨200, some u, items⟩

/-- `POST /supplier`: uniqueness of the case-insensitive
`(supplier_name, contact_email)` pair is checked against the whole
collection before appending. -/
def create (newId : String) (b : Body) (items : List Rec) : Res Rec Rec :=
  if !truthyS b.supplier_name || !truthyS b.contact_email then
    ⟨400, none, items⟩
  else if !isEmail (b.contact_email.getD "") then
    ⟨400, none, items⟩
  else if items.any (fun x =>
      toLowerJS x.supplier_name == toLowerJS (b.supplier_name.getD "") &&
      toLowerJS x.contact_email == toLowerJS (b.contact_email.getD "")) then
    ⟨409, none, items⟩
  else
    let novo : Rec :=
      { id := newId
        supplier_name := b.supplier_name.getD ""
        supplier_category := b.supplier_category.getD ""
        contact_email := b.contact_email.getD ""
        phone_number := normalizePhone b.phone_number
        status := sanitizeStatus b.status }
    ⟨201, some novo, items ++ [novo]⟩

/-- `PUT /supplier/:id`: when the name or the email is being changed, the
new pair is checked against every other record before overwriting.  The
source's `(supplier_name ?? items[idx].supplier_name) || ''` is the
identity on strings once `undefined` is resolved, hence `getD`. -/
def update (id : String) (b : Body) (items : List Rec) : Res Rec Rec :=
  match items.find? (fun x => x.id == id) with
  | none => ⟨404, none, items⟩
  | some old =>
    if b.contact_email.isSome && !isEmail (b.contact_email.getD "") then
      ⟨400, none, items⟩
    else if (b.supplier_name.isSome || b.contact_email.isSome) &&
        items.any (fun x =>
          x.id != id &&
          toLowerJS x.supplier_name == toLowerJS (b.supplier_name.getD old.supplier_name) &&
          toLowerJS x.contact_email == toLowerJS (b.contact_email.getD old.contact_email)) then
      ⟨409, none, items⟩
    else
      let u : Rec :=
        { id := old.id
          supplier_name := b.supplier_name.getD old.supplier_name
          supplier_category := b.supplier_category.getD old.supplier_category
          contact_email := b.contact_email.getD old.contact_email
          phone_number :=
            match b.phone_number with
            | some p => normalizePhone (some p)
            | none => old.phone_number
          status :=
            match b.status with
            | some s => sanitizeStatus (some s)
            | none => old.status }
      ⟨200, some u, setFirst (fun x => x.id == id) u items⟩

/-- `DELETE /supplier/:id`. -/
def remove (id : String) (items : List Rec) : Res Rec Rec :=
  match items.find? (fun x => x.id == id) with
  | none => ⟨404, none, items⟩
  | some _ => ⟨204, none, removeFirst (fun x => x.id == id) items⟩

/-- Two supplier records agree on the case-insensitive
`(supplier_name, contact_email)` pair. -/
def sameKey (a b : Rec) : Prop :=
  toLowerJS a.supplier_name = toLowerJS b.supplier_name ∧
  toLowerJS a.contact_email = toLowerJS b.contact_email

instance sameKeyDec : DecidableRel sameKey := fun a b =>
  inferInstanceAs (Decidable
    (toLowerJS a.supplier_name = toLowerJS b.supplier_name ∧
     toLowerJS a.contact_email = toLowerJS b.contact_email))

/-- No two records of the collection agree on the case-insensitive
`(supplier_name, contact_email)` pair. -/
def UniquePairs (l : List Rec) : Prop := l.Pairwise (fun a b => ¬ sameKey a b)

end Supplier

/-! ### productRoutes.js -/

namespace Product

/-- A product record as persisted in `db/product.json`. -/
structure Rec where
  id : String
  name : String
  description : String
  price : ℚ
  stock_quantity : ℤ
  supplier_id : String
  status : String
deriving Repr, DecidableEq

/-- The request body accepted by the product POST/PUT handlers. -/
structure Body where
  name : Option String
  description : Option String
  price : Option NumIn
  stock_quantity : Option NumIn
  supplier_id : Option String
  status : Option String
deriving Repr, DecidableEq

/-- The product module's `sanitizeStatus` (same code as the store one). -/
def sanitizeStatus (st : Option String) : String :=
  match st with
  | some s => if s = "on" || s = "off" then s else "on"
  | none => "on"

/-- The `toPrice` validator: `parseFloat`, reject non-finite or negative,
round to two decimals. -/
def toPrice (val : NumIn) : Option ℚ :=
  match parseFloatJS val with
  | none => none
  | some n => if n < 0 then none else some (round2 n)

/-- The `toInt` validator: `parseInt(val, 10)`, reject non-integers
(`NaN`) and negatives. -/
def toInt (val : NumIn) : Option ℤ :=
  match parseIntJS val with
  | none => none
  | some n => if n < 0 then none else some n

/-- `GET /product/:id`. -/
def getById (id : String) (items : List Rec) : Res Rec Rec :=
  match items.find? (fun x => x.id == id) with
  | none => ⟨404, none, items⟩
  | some u => ⟨200, some u, items⟩

/-- `POST /product`.  The `getD (.jnum 0)` defaults are never used: the
required-field guard has already established the fields are present. -/
def create (newId : String) (b : Body) (items : List Rec) : Res Rec Rec :=
  if !truthyS b.name || b.price.isNone || b.stock_quantity.isNone ||
      !truthyS b.supplier_id then
    ⟨400, none, items⟩
  else
    match toPrice (b.price.getD (.jnum 0)) with
    | none => ⟨400, none, items⟩
    | some priceNum =>
      match toInt (b.stock_quantity.getD (.jnum 0)) with
      | none => ⟨400, none, items⟩
      | some stockNum =>
        if items.any (fun x =>
            toLowerJS x.name == toLowerJS (b.name.getD "") &&
            x.supplier_id == b.supplier_id.getD "") then
          ⟨409, none, items⟩
        else
          let novo : Rec :=
            { id := newId
              name := b.name.getD ""
              description := b.description.getD ""
              price := priceNum
              stock_quantity := stockNum
              supplier_id := b.supplier_id.getD ""
              status := sanitizeStatus b.status }
          ⟨201, some novo, items ++ [novo]⟩

/-- Tail of `PUT /product/:id` after price and stock have been applied to
the in-memory copy `mid` of the target: the duplicate-name check runs over
the already mutated array and can still answer 409, in which case the file
keeps the input collection. -/
def updateFinish (id : String) (b : Body) (items : List Rec) (mid : Rec) :
    Res Rec Rec :=
  let items1 := setFirst (fun x => x.id == id) mid items
  if (b.name.isSome || b.supplier_id.isSome) &&
      items1.any (fun x =>
        x.id != id &&
        toLowerJS x.name == toLowerJS (b.name.getD mid.name) &&
        x.supplier_id == b.supplier_id.getD mid.supplier_id) then
    ⟨409, none, items⟩
  else
    let u : Rec :=
      { mid with
        name := b.name.getD mid.name
        description := b.description.getD mid.description
        supplier_id := b.supplier_id.getD mid.supplier_id
        status :=
          match b.status with
          | some s => sanitizeStatus (some s)
          | none => mid.status }
    ⟨200, some u, setFirst (fun x => x.id == id) u items⟩

/-- Middle of `PUT /product/:id`: validate and apply `stock_quantity`. -/
def updateStock (id : String) (b : Body) (items : List Rec) (mid : Rec) :
    Res Rec Rec :=
  match b.stock_quantity with
  | some sv =>
    match toInt sv with
    | none => ⟨400, none, items⟩
    | some s => updateFinish id b items { mid with stock_quantity := s }
  | none => updateFinish id b items mid

/-- `PUT /product/:id`: locate the record, then validate and apply
`price`, then `stock_quantity`, then run the duplicate check and apply the
remaining fields. -/
def update (id : String) (b : Body) (items : List Rec) : Res Rec Rec :=
  match items.find? (fun x => x.id == id) with
  | none => ⟨404, none, items⟩
  | some old =>
    match b.price with
    | some pv =>
      match toPrice pv with
      | none => ⟨400, none, items⟩
      | some p => updateStock id b items { old with price := p }
    | none => updateStock id b items old

/-- `DELETE /product/:id`. -/
def remove (id : String) (items : List Rec) : Res Rec Rec :=
  match items.find? (fun x => x.id == id) with
  | none => ⟨404, none, items⟩
  | some _ => ⟨204, none, removeFirst (fun x => x.id == id) items⟩

end Product

/-! ### orderRoutes.js -/

namespace Order

/-- An order record as persisted in `db/order.json`.  The free-form `item`
payload is abstracted as a string. -/
structure Rec where
  id : String
  store_id : String
  item : String
  total_amount : ℚ
  status : String
  date : DateStr
deriving Repr, DecidableEq

/-- The request body accepted by the order POST/PUT handlers. -/
structure Body where
  store_id : Option String
  item : Option String
  total_amount : Option NumIn
  status : Option String
  date : Option DateStr
deriving Repr, DecidableEq

/-- The order module's `sanitizeStatus`: member of
`['Pending','Shipped','Delivered']` kept, anything else replaced by
`'Pending'`. -/
def sanitizeStatus (st : Option String) : String :=
  match st with
  | some s => if s = "Pending" || s = "Shipped" || s = "Delivered" then s else "Pending"
  | none => "Pending"

/-- The `toAmount` validator (same code as the product `toPrice`). -/
def toAmount (val : NumIn) : Option ℚ :=
  match parseFloatJS val with
  | none => none
  | some n => if n < 0 then none else some (round2 n)

/-- `GET /order/:id`. -/
def getById (id : String) (items : List Rec) : Res Rec Rec :=
  match items.find? (fun x => x.id == id) with
  | none => ⟨404, none, items⟩
  | some u => ⟨200, some u, items⟩

/-- `POST /order`: note that the required-field guard tests JS truthiness
of `total_amount`, so the number `0` is treated as missing.  `now` is the
timestamp of `new Date()` used when no date is supplied. -/
def create (newId : String) (now : ℤ) (b : Body) (items : List Rec) :
    Res Rec Rec :=
  if !truthyS b.store_id || !truthyS b.item || !truthyN b.total_amount then
    ⟨400, none, items⟩
  else
    match toAmount (b.total_amount.getD (.jnum 0)) with
    | none => ⟨400, none, items⟩
    | some total =>
      match (if truthyD b.date then parseDate (b.date.getD ⟨"", none⟩) else some now) with
      | none => ⟨400, none, items⟩
      | some d =>
        let novo : Rec :=
          { id := newId
            store_id := b.store_id.getD ""
            item := b.item.getD ""
            total_amount := total
            status := sanitizeStatus b.status
            date := formatSQLLike d }
        ⟨201, some novo, items ++ [novo]⟩

/-- Tail of `PUT /order/:id` after amount and date have been applied. -/
def updateFinish (id : String) (b : Body) (items : List Rec) (mid : Rec) :
    Res Rec Rec :=
  let u : Rec :=
    { mid with
      store_id := b.store_id.getD mid.store_id
      item := b.item.getD mid.item
      status :=
        match b.status with
        | some s => sanitizeStatus (some s)
        | none => mid.status }
  ⟨200, some u, setFirst (fun x => x.id == id) u items⟩

/-- Middle of `PUT /order/:id`: validate and apply `date`. -/
def updateDate (id : String) (b : Body) (items : List Rec) (mid : Rec) :
    Res Rec Rec :=
  match b.date with
  | some dv =>
    match parseDate dv with
    | none => ⟨400, none, items⟩
    | some d => updateFinish id b items { mid with date := formatSQLLike d }
  | none => updateFinish id b items mid

/-- `PUT /order/:id`. -/
def update (id : String) (b : Body) (items : List Rec) : Res Rec Rec :=
  match items.find? (fun x => x.id == id) with
  | none => ⟨404, none, items⟩
  | some old =>
    match b.total_amount with
    | some tv =>
      match toAmount tv with
      | none => ⟨400, none, items⟩
      | some t => updateDate id b items { old with total_amount := t }
    | none => updateDate id b items old

/-- `DELETE /order/:id`. -/
def remove (id : String) (items : List Rec) : Res Rec Rec :=
  match items.find? (fun x => x.id == id) with
  | none => ⟨404, none, items⟩
  | some _ => ⟨204, none, removeFirst (fun x => x.id == id) items⟩

end Order

/-! ### campaingRoutes.js -/

namespace Campaign

/-- A campaign record as persisted in `db/campaign.json`. -/
structure Rec where
  id : String
  supplier_id : String
  name : String
  start_date : DateStr
  end_date : DateStr
  discount_percentage : ℚ
deriving Repr, DecidableEq

/-- The request body accepted by the campaign POST/PUT handlers. -/
structure Body where
  supplier_id : Option String
  name : Option String
  start_date : Option DateStr
  end_date : Option DateStr
  discount_percentage : Option NumIn
deriving Repr, DecidableEq

/-- The `validPercent` validator: `parseFloat`, accept exactly the finite
values in `[0, 100]`, rounded to two decimals. -/
def validPercent (v : NumIn) : Option ℚ :=
  match parseFloatJS v with
  | none => none
  | some n => if 0 ≤ n && n ≤ 100 then some (round2 n) else none

/-- The spec's overlap rule for a new campaign against the stored ones:
some existing campaign has the same supplier, the same name up to case,
and parsed date intervals with `existing.start ≤ new.end` and
`new.start ≤ existing.end`. -/
def overlapExists (sid nm : String) (sd ed : ℤ) (items : List Rec) : Prop :=
  ∃ x ∈ items, x.supplier_id = sid ∧ toLowerJS x.name = toLowerJS nm ∧
    ∃ ts te, parseDate x.start_date = some ts ∧ parseDate x.end_date = some te ∧
      ts ≤ ed ∧ sd ≤ te

/-- `GET /campaing/:id`. -/
def getById (id : String) (items : List Rec) : Res Rec Rec :=
  match items.find? (fun x => x.id == id) with
  | none => ⟨404, none, items⟩
  | some u => ⟨200, some u, items⟩

/-- `POST /campaing`: the overlap check compares the parsed request dates
with the re-parsed stored dates; an unparseable stored date behaves as the
JS `null`, which coerces to timestamp `0` in the comparisons. -/
def create (newId : String) (b : Body) (items : List Rec) : Res Rec Rec :=
  if !truthyS b.supplier_id || !truthyS b.name || !truthyD b.start_date ||
      !truthyD b.end_date || b.discount_percentage.isNone then
    ⟨400, none, items⟩
  else
    match parseDate (b.start_date.getD ⟨"", none⟩),
          parseDate (b.end_date.getD ⟨"", none⟩) with
    | some sd, some ed =>
      if ed < sd then ⟨400, none, items⟩
      else
        match validPercent (b.discount_percentage.getD (.jnum 0)) with
        | none => ⟨400, none, items⟩
        | some pct =>
          if items.any (fun x =>
              x.supplier_id == b.supplier_id.getD "" &&
              toLowerJS x.name == toLowerJS (b.name.getD "") &&
              jsLe (parseDate x.start_date) (some ed) &&
              jsLe (some sd) (parseDate x.end_date)) then
            ⟨409, none, items⟩
          else
            let novo : Rec :=
              { id := newId
                supplier_id := b.supplier_id.getD ""
                name := b.name.getD ""
                start_date := formatSQLLike sd
                end_date := formatSQLLike ed
                discount_percentage := pct }
            ⟨201, some novo, items ++ [novo]⟩
    | _, _ => ⟨400, none, items⟩

/-- Tail of `PUT /campaing/:id`: the conflict check runs over the array
with the discount already applied to the target (which the check itself
excludes by id).  When a date field was provided the earlier validation
guarantees the parsed value is present, so the `getD 0` defaults are never
used. -/
def updateConflict (id : String) (b : Body) (items : List Rec) (mid : Rec)
    (sd ed : Option ℤ) : Res Rec Rec :=
  let items1 := setFirst (fun x => x.id == id) mid items
  if items1.any (fun x =>
      x.id != id &&
      x.supplier_id == b.supplier_id.getD mid.supplier_id &&
      toLowerJS x.name == toLowerJS (b.name.getD mid.name) &&
      jsLe (parseDate x.start_date) ed &&
      jsLe sd (parseDate x.end_date)) then
    ⟨409, none, items⟩
  else
    let u : Rec :=
      { mid with
        supplier_id := b.supplier_id.getD mid.supplier_id
        name := b.name.getD mid.name
        start_date :=
          match b.start_date with
          | some _ => formatSQLLike (sd.getD 0)
          | none => mid.start_date
        end_date :=
          match b.end_date with
          | some _ => formatSQLLike (ed.getD 0)
          | none => mid.end_date }
    ⟨200, some u, setFirst (fun x => x.id == id) u items⟩

/-- Middle of `PUT /campaing/:id`: resolve and validate the dates (falling
back to the stored strings re-parsed), then hand over to the conflict
check.  A present-but-invalid date is a 400; `sd > ed` is only tested when
both parses succeeded, since JS `Date` objects are truthy and `null` is
falsy. -/
def updateDates (id : String) (b : Body) (items : List Rec) (mid : Rec) :
    Res Rec Rec :=
  let sd : Option ℤ :=
    match b.start_date with
    | some v => parseDate v
    | none => parseDate mid.start_date
  let ed : Option ℤ :=
    match b.end_date with
    | some v => parseDate v
    | none => parseDate mid.end_date
  if b.start_date.isSome && sd.isNone then ⟨400, none, items⟩
  else if b.end_date.isSome && ed.isNone then ⟨400, none, items⟩
  else if sd.isSome && ed.isSome && ed.getD 0 < sd.getD 0 then ⟨400, none, items⟩
  else updateConflict id b items mid sd ed

/-- `PUT /campaing/:id`: locate the record, validate and apply the
discount to the in-memory copy, then dates, conflict check, remaining
fields. -/
def update (id : String) (b : Body) (items : List Rec) : Res Rec Rec :=
  match items.find? (fun x => x.id == id) with
  | none => ⟨404, none, items⟩
  | some old =>
    match b.discount_percentage with
    | some dv =>
      match validPercent dv with
      | none => ⟨400, none, items⟩
      | some pct => updateDates id b items { old with discount_percentage := pct }
    | none => updateDates id b items old

/-- `DELETE /campaing/:id`. -/
def remove (id : String) (items : List Rec) : Res Rec Rec :=
  match items.find? (fun x => x.id == id) with
  | none => ⟨404, none, items⟩
  | some _ => ⟨204, none, removeFirst (fun x => x.id == id) items⟩

end Campaign

/-! ### usersRoutes.js -/

namespace Users

/-- A user record as persisted in `db/users.json`; `pwd` holds the bcrypt
hash. -/
structure Rec where
  id : String
  name : String
  contact_email : String
  user : String
  pwd : String
  level : String
  status : String
deriving Repr, DecidableEq

/-- The request body accepted by the users POST/PUT/login handlers. -/
structure Body where
  name : Option String
  contact_email : Option String
  user : Option String
  pwd : Option String
  level : Option String
  status : Option String
deriving Repr, DecidableEq

/-- The users module's `sanitizeLevel`: member of `['admin','user']` kept,
anything else replaced by `'user'`. -/
def sanitizeLevel (lvl : Option String) : String :=
  match lvl with
  | some s => if s = "admin" || s = "user" then s else "user"
  | none => "user"

/-- The users module's `sanitizeStatus` (same code as the store one). -/
def sanitizeStatus (st : Option String) : String :=
  match st with
  | some s => if s = "on" || s = "off" then s else "on"
  | none => "on"

/-- A user record as serialized after the `{ pwd, ...rest }` strip. -/
structure SafeUser where
  id : String
  name : String
  contact_email : String
  user : String
  level : String
  status : String
deriving Repr, DecidableEq

/-- The `{ pwd, ...safe }` destructuring: every field except `pwd`. -/
def sanitizeUser (u : Rec) : SafeUser :=
  ⟨u.id, u.name, u.contact_email, u.user, u.level, u.status⟩

/-- Shape of a users-route response body: a full record (its JSON carries
the `pwd` key), a sanitized record, or a sanitized list. -/
inductive UserOut where
  | full (u : Rec)
  | safe (s : SafeUser)
  | many (l : List SafeUser)
deriving Repr, DecidableEq

/-- Value of the `pwd` key in the serialized response body, when present. -/
def pwdField : UserOut → Option String
  | .full u => some u.pwd
  | .safe _ => none
  | .many _ => none

/-- `GET /users` (optional case-insensitive name filter): the result list
is sanitized record by record. -/
def list (nameQ : Option String) (users : List Rec) : Res Rec UserOut :=
  let result :=
    if truthyS nameQ then
      users.filter (fun u => includesJS (toLowerJS u.name) (toLowerJS (nameQ.getD "")))
    else users
  ⟨200, some (.many (result.map sanitizeUser)), users⟩

/-- `GET /users/:id`: `res.json(u)` serializes the stored record as-is,
including the `pwd` hash. -/
def getById (id : String) (users : List Rec) : Res Rec UserOut :=
  match users.find? (fun x => x.id == id) with
  | none => ⟨404, none, users⟩
  | some u => ⟨200, some (.full u), users⟩

/-- `POST /users`: `hash` models `bcrypt.hash(pwd, 10)`. -/
def create (hash : String → String) (newId : String) (b : Body)
    (users : List Rec) : Res Rec UserOut :=
  if !truthyS b.name || !truthyS b.contact_email || !truthyS b.user ||
      !truthyS b.pwd then
    ⟨400, none, users⟩
  else if !isEmail (b.contact_email.getD "") then
    ⟨400, none, users⟩
  else if users.any (fun u => u.user == b.user.getD "") then
    ⟨409, none, users⟩
  else if users.any (fun u => u.contact_email == b.contact_email.getD "") then
    ⟨409, none, users⟩
  else
    let novo : Rec :=
      { id := newId
        name := b.name.getD ""
        contact_email := b.contact_email.getD ""
        user := b.user.getD ""
        pwd := hash (b.pwd.getD "")
        level := sanitizeLevel b.level
        status := sanitizeStatus b.status }
    ⟨201, some (.safe (sanitizeUser novo)), users ++ [novo]⟩

/-- `POST /users/login`: `bcrypt.compare` is modelled as equality with the
stored hash under the same abstract `hash`. -/
def login (hash : String → String) (b : Body) (users : List Rec) :
    Res Rec UserOut :=
  if !truthyS b.user || !truthyS b.pwd then ⟨400, none, users⟩
  else
    match users.find? (fun x => x.user == b.user.getD "" && x.status != "off") with
    | none => ⟨401, none, users⟩
    | some u =>
      if hash (b.pwd.getD "") != u.pwd then ⟨401, none, users⟩
      else ⟨200, some (.safe (sanitizeUser u)), users⟩

/-- `PUT /users/:id`. -/
def update (hash : String → String) (id : String) (b : Body)
    (users : List Rec) : Res Rec UserOut :=
  match users.find? (fun x => x.id == id) with
  | none => ⟨404, none, users⟩
  | some old =>
    if truthyS b.user &&
        users.any (fun u => u.user == b.user.getD "" && u.id != id) then
      ⟨409, none, users⟩
    else if truthyS b.contact_email && !isEmail (b.contact_email.getD "") then
      ⟨400, none, users⟩
    else if truthyS b.contact_email &&
        users.any (fun u => u.contact_email == b.contact_email.getD "" && u.id != id) then
      ⟨409, none, users⟩
    else
      let u : Rec :=
        { old with
          name := b.name.getD old.name
          contact_email := b.contact_email.getD old.contact_email
          user := b.user.getD old.user
          level :=
            match b.level with
            | some l => sanitizeLevel (some l)
            | none => old.level
          status :=
            match b.status with
            | some s => sanitizeStatus (some s)
            | none => old.status
          pwd :=
            match b.pwd with
            | some p => hash p
            | none => old.pwd }
      ⟨200, some (.safe (sanitizeUser u)), setFirst (fun x => x.id == id) u users⟩

/-- `DELETE /users/:id`. -/
def remove (id : String) (users : List Rec) : Res Rec UserOut :=
  match users.find? (fun x => x.id == id) with
  | none => ⟨404, none, users⟩
  | some _ => ⟨204, none, removeFirst (fun x => x.id == id) users⟩

end Users

/-! ## Supporting lemmas -/

/-- The kernel-friendly `ratFloor` is the mathematical floor. -/
theorem ratFloor_eq_floor (x : ℚ) : ratFloor x = ⌊x⌋ := by
  rw [Rat.floor_def, ratFloor, Int.fdiv_eq_ediv _ (by positivity)]

/-- The kernel-friendly `jsRound` is `⌊x + 1/2⌋`, the JS `Math.round` on
all finite inputs. -/
theorem jsRound_eq_floor (x : ℚ) : jsRound x = ⌊x + 1/2⌋ := by
  have hden : (x.den : ℚ) ≠ 0 := by exact_mod_cast x.den_nz
  have hnum : (x.num : ℚ) = x * (x.den : ℚ) :=
    (div_eq_iff hden).1 (Rat.num_div_den x)
  have h2 : ((2 * x.den : ℕ) : ℚ) ≠ 0 := by
    exact_mod_cast Nat.mul_ne_zero (by norm_num) x.den_nz
  have hx : x + 1/2 = ((2 * x.num + (x.den : ℤ) : ℤ) : ℚ) / ((2 * x.den : ℕ) : ℚ) := by
    rw [eq_div_iff h2]
    push_cast
    linear_combination -2 * hnum
  rw [jsRound, hx, Rat.floor_intCast_div_natCast, Int.fdiv_eq_ediv _ (by positivity)]
  push_cast
  ring_nf

/-- The kernel-friendly `round2` is exactly the source expression
`Math.round(n * 100) / 100`. -/
theorem round2_eq_div (n : ℚ) : round2 n = (jsRound (n * 100) : ℚ) / 100 := by
  have h1 : mkRat (n.num * 100) n.den = n * 100 := by
    rw [Rat.mkRat_eq_div]
    push_cast
    conv_rhs => rw [← Rat.num_div_den n]
    ring
  rw [round2, h1, Rat.mkRat_eq_div]
  norm_num

/-- Replacing one element preserves the length. -/
theorem setFirst_length (p : α → Bool) (u : α) (l : List α) :
    (setFirst p u l).length = l.length := by
  induction l with
  | nil => rfl
  | cons x xs ih => by_cases h : p x <;> simp [setFirst, h, ih]

/-- Members of the updated list are the new element or old members. -/
theorem mem_setFirst {p : α → Bool} {u y : α} {l : List α}
    (hy : y ∈ setFirst p u l) : y = u ∨ y ∈ l := by
  induction l with
  | nil => simp [setFirst] at hy
  | cons x xs ih =>
    by_cases h : p x
    · simp only [setFirst, h, if_pos] at hy
      rcases List.mem_cons.1 hy with h1 | h1
      · exact Or.inl h1
      · exact Or.inr (List.mem_cons_of_mem _ h1)
    · simp only [setFirst, h, if_neg, Bool.false_eq_true, not_false_iff] at hy
      rcases List.mem_cons.1 hy with h1 | h1
      · exact Or.inr (by simp [h1])
      · rcases ih h1 with h2 | h2
        · exact Or.inl h2
        · exact Or.inr (List.mem_cons_of_mem _ h2)

/-- A successful `find?` locates an index at which `setFirst` behaves as
`List.set`. -/
theorem find?_decomp {p : α → Bool} {l : List α} {a : α}
    (h : l.find? p = some a) (u : α) :
    ∃ i, l[i]? = some a ∧ setFirst p u l = l.set i u := by
  induction l with
  | nil => simp at h
  | cons x xs ih =>
    by_cases hp : p x
    · refine ⟨0, ?_, ?_⟩
      · rw [List.find?_cons_of_pos _ hp] at h
        simpa using h
      · simp [setFirst, hp]
    · rw [List.find?_cons_of_neg _ hp] at h
      obtain ⟨i, hi, hs⟩ := ih h
      exact ⟨i + 1, by simpa using hi, by simp [setFirst, hp, hs]⟩

/-- Removing one element yields a sublist. -/
theorem removeFirst_sublist (p : α → Bool) (l : List α) :
    List.Sublist (removeFirst p l) l := by
  induction l with
  | nil => simp only [removeFirst, List.Sublist.refl]
  | cons x xs ih =>
    by_cases h : p x
    · simp only [removeFirst, h, if_pos]
      exact List.sublist_cons_self x xs
    · simp only [removeFirst, h, Bool.false_eq_true, if_neg, not_false_iff]
      exact ih.cons₂ x

/-! ### Handler case analyses

One lemma per handler: either the request failed (status is not the
success code and the persisted file keeps the input collection), or the
full success outcome is described. -/

/-- Case analysis of the store create handler. -/
theorem Store.create_shape_store (newId : String) (b : Store.Body) (items : List Store.Rec) :
    ((Store.create newId b items).status ≠ 201 ∧ (Store.create newId b items).db = items) ∨
    (∃ novo, Store.create newId b items = ⟨201, some novo, items ++ [novo]⟩ ∧
      novo = ⟨newId, b.store_name.getD "", b.cnpj.getD "", b.address.getD "",
        normalizePhone b.phone_number, b.contact_email.getD "",
        Store.sanitizeStatus b.status⟩) := by
  unfold Store.create
  split
  · exact Or.inl ⟨by simp, rfl⟩
  · split
    · exact Or.inl ⟨by simp, rfl⟩
    · split
      · exact Or.inl ⟨by simp, rfl⟩
      · exact Or.inr ⟨_, rfl, rfl⟩

/-- Case analysis of the store update handler. -/
theorem Store.update_shape_store (id : String) (b : Store.Body) (items : List Store.Rec) :
    ((Store.update id b items).status ≠ 200 ∧ (Store.update id b items).db = items) ∨
    (∃ old u, items.find? (fun x => x.id == id) = some old ∧
      Store.update id b items = ⟨200, some u, setFirst (fun x => x.id == id) u items⟩ ∧
      u = ⟨old.id, b.store_name.getD old.store_name, b.cnpj.getD old.cnpj,
        b.address.getD old.address,
        (match b.phone_number with
         | some p => normalizePhone (some p)
         | none => old.phone_number),
        b.contact_email.getD old.contact_email,
        (match b.status with
         | some s => Store.sanitizeStatus (some s)
         | none => old.status)⟩) := by
  unfold Store.update
  split
  · exact Or.inl ⟨by simp, rfl⟩
  · rename_i old hfind
    split
    · exact Or.inl ⟨by simp, rfl⟩
    · split
      · exact Or.inl ⟨by simp, rfl⟩
      · exact Or.inr ⟨old, _, hfind, rfl, rfl⟩

/-- Case analysis of the store delete handler. -/
theorem Store.remove_shape_store (id : String) (items : List Store.Rec) :
    ((Store.remove id items).status = 404 ∧ (Store.remove id items).db = items ∧
      items.find? (fun x => x.id == id) = none) ∨
    ((Store.remove id items).status = 204 ∧
      (Store.remove id items).db = removeFirst (fun x => x.id == id) items) := by
  unfold Store.remove
  split
  · rename_i hfind
    exact Or.inl ⟨rfl, rfl, hfind⟩
  · exact Or.inr ⟨rfl, rfl⟩

/-- The store read-one handler never writes. -/
theorem Store.getById_db_store (id : String) (items : List Store.Rec) :
    (Store.getById id items).db = items := by
  unfold Store.getById
  split <;> rfl

/-- A store update on an id absent from the collection is a 404 that
leaves the collection unchanged. -/
theorem Store.update_not_found_store (id : String) (b : Store.Body)
    (items : List Store.Rec) (h : items.find? (fun x => x.id == id) = none) :
    Store.update id b items = ⟨404, none, items⟩ := by
  unfold Store.update
  rw [h]

/-- Case analysis of the supplier create handler. -/
theorem Supplier.create_shape_supplier (newId : String) (b : Supplier.Body) (items : List Supplier.Rec) :
    ((Supplier.create newId b items).status ≠ 201 ∧ (Supplier.create newId b items).db = items) ∨
    (∃ novo, Supplier.create newId b items = ⟨201, some novo, items ++ [novo]⟩ ∧
      novo = ⟨newId, b.supplier_name.getD "", b.supplier_category.getD "",
        b.contact_email.getD "", normalizePhone b.phone_number,
        Supplier.sanitizeStatus b.status⟩ ∧
      items.any (fun x =>
        toLowerJS x.supplier_name == toLowerJS (b.supplier_name.getD "") &&
        toLowerJS x.contact_email == toLowerJS (b.contact_email.getD "")) = false) := by
  unfold Supplier.create
  split
  · exact Or.inl ⟨by simp, rfl⟩
  · split
    · exact Or.inl ⟨by simp, rfl⟩
    · split
      · exact Or.inl ⟨by simp, rfl⟩
      · rename_i hchk
        exact Or.inr ⟨_, rfl, rfl, by simpa using hchk⟩

/-- Case analysis of the supplier update handler. -/
theorem Supplier.update_shape_supplier (id : String) (b : Supplier.Body) (items : List Supplier.Rec) :
    ((Supplier.update id b items).status ≠ 200 ∧ (Supplier.update id b items).db = items) ∨
    (∃ old u, items.find? (fun x => x.id == id) = some old ∧
      Supplier.update id b items = ⟨200, some u, setFirst (fun x => x.id == id) u items⟩ ∧
      u = ⟨old.id, b.supplier_name.getD old.supplier_name,
        b.supplier_category.getD old.supplier_category,
        b.contact_email.getD old.contact_email,
        (match b.phone_number with
         | some p => normalizePhone (some p)
         | none => old.phone_number),
        (match b.status with
         | some s => Supplier.sanitizeStatus (some s)
         | none => old.status)⟩ ∧
      ((b.supplier_name.isSome || b.contact_email.isSome) &&
        items.any (fun x =>
          x.id != id &&
          toLowerJS x.supplier_name == toLowerJS (b.supplier_name.getD old.supplier_name) &&
          toLowerJS x.contact_email == toLowerJS (b.contact_email.getD old.contact_email))) = false) := by
  unfold Supplier.update
  split
  · exact Or.inl ⟨by simp, rfl⟩
  · rename_i old hfind
    split
    · exact Or.inl ⟨by simp, rfl⟩
    · split
      · exact Or.inl ⟨by simp, rfl⟩
      · rename_i hchk
        exact Or.inr ⟨old, _, hfind, rfl, rfl, by simpa using hchk⟩

/-- Case analysis of the supplier delete handler. -/
theorem Supplier.remove_shape_supplier (id : String) (items : List Supplier.Rec) :
    ((Supplier.remove id items).status = 404 ∧ (Supplier.remove id items).db = items ∧
      items.find? (fun x => x.id == id) = none) ∨
    ((Supplier.remove id items).status = 204 ∧
      (Supplier.remove id items).db = removeFirst (fun x => x.id == id) items) := by
  unfold Supplier.remove
  split
  · rename_i hfind
    exact Or.inl ⟨rfl, rfl, hfind⟩
  · exact Or.inr ⟨rfl, rfl⟩

/-- The supplier read-one handler never writes. -/
theorem Supplier.getById_db_supplier (id : String) (items : List Supplier.Rec) :
    (Supplier.getById id items).db = items := by
  unfold Supplier.getById
  split <;> rfl

/-- A supplier update on an absent id is a 404 leaving the collection
unchanged. -/
theorem Supplier.update_not_found_supplier (id : String) (b : Supplier.Body)
    (items : List Supplier.Rec) (h : items.find? (fun x => x.id == id) = none) :
    Supplier.update id b items = ⟨404, none, items⟩ := by
  unfold Supplier.update
  rw [h]

/-- Case analysis of the product create handler. -/
theorem Product.create_shape_product (newId : String) (b : Product.Body) (items : List Product.Rec) :
    ((Product.create newId b items).status ≠ 201 ∧ (Product.create newId b items).db = items) ∨
    (∃ priceNum stockNum novo,
      toPrice (b.price.getD (.jnum 0)) = some priceNum ∧
      toInt (b.stock_quantity.getD (.jnum 0)) = some stockNum ∧
      Product.create newId b items = ⟨201, some novo, items ++ [novo]⟩ ∧
      novo = ⟨newId, b.name.getD "", b.description.getD "", priceNum, stockNum,
        b.supplier_id.getD "", Product.sanitizeStatus b.status⟩) := by
  unfold Product.create
  split
  · exact Or.inl ⟨by simp, rfl⟩
  · split
    · exact Or.inl ⟨by simp, rfl⟩
    · rename_i priceNum hprice
      split
      · exact Or.inl ⟨by simp, rfl⟩
      · rename_i stockNum hstock
        split
        · exact Or.inl ⟨by simp, rfl⟩
        · exact Or.inr ⟨priceNum, stockNum, _, hprice, hstock, rfl, rfl⟩

/-- Case analysis of the tail of the product update handler. -/
theorem Product.updateFinish_shape (id : String) (b : Product.Body)
    (items : List Product.Rec) (mid : Product.Rec) :
    ((Product.updateFinish id b items mid).status ≠ 200 ∧
      (Product.updateFinish id b items mid).db = items) ∨
    (∃ u, Product.updateFinish id b items mid
        = ⟨200, some u, setFirst (fun x => x.id == id) u items⟩ ∧
      u = ⟨mid.id, b.name.getD mid.name, b.description.getD mid.description,
        mid.price, mid.stock_quantity, b.supplier_id.getD mid.supplier_id,
        (match b.status with
         | some s => Product.sanitizeStatus (some s)
         | none => mid.status)⟩) := by
  unfold Product.updateFinish
  dsimp only
  split
  · exact Or.inl ⟨by simp, rfl⟩
  · exact Or.inr ⟨_, rfl, rfl⟩

/-- Case analysis of the stock step of the product update handler. -/
theorem Product.updateStock_shape (id : String) (b : Product.Body)
    (items : List Product.Rec) (mid : Product.Rec) :
    ((Product.updateStock id b items mid).status ≠ 200 ∧
      (Product.updateStock id b items mid).db = items) ∨
    (∃ stq u,
      (match b.stock_quantity with
       | some sv => toInt sv = some stq
       | none => stq = mid.stock_quantity) ∧
      Product.updateStock id b items mid
        = ⟨200, some u, setFirst (fun x => x.id == id) u items⟩ ∧
      u = ⟨mid.id, b.name.getD mid.name, b.description.getD mid.description,
        mid.price, stq, b.supplier_id.getD mid.supplier_id,
        (match b.status with
         | some s => Product.sanitizeStatus (some s)
         | none => mid.status)⟩) := by
  unfold Product.updateStock
  split
  · rename_i sv hsv
    split
    · exact Or.inl ⟨by simp, rfl⟩
    · rename_i s hs
      rcases Product.updateFinish_shape id b items { mid with stock_quantity := s } with
        ⟨h1, h2⟩ | ⟨u, hres, hu⟩
      · exact Or.inl ⟨h1, h2⟩
      · exact Or.inr ⟨s, u, hs, hres, hu⟩
  · rcases Product.updateFinish_shape id b items mid with ⟨h1, h2⟩ | ⟨u, hres, hu⟩
    · exact Or.inl ⟨h1, h2⟩
    · exact Or.inr ⟨mid.stock_quantity, u, rfl, hres, hu⟩

/-- Case analysis of the product update handler. -/
theorem Product.update_shape_product (id : String) (b : Product.Body) (items : List Product.Rec) :
    ((Product.update id b items).status ≠ 200 ∧ (Product.update id b items).db = items) ∨
    (∃ old prq stq u, items.find? (fun x => x.id == id) = some old ∧
      (match b.price with
       | some pv => toPrice pv = some prq
       | none => prq = old.price) ∧
      (match b.stock_quantity with
       | some sv => toInt sv = some stq
       | none => stq = old.stock_quantity) ∧
      Product.update id b items = ⟨200, some u, setFirst (fun x => x.id == id) u items⟩ ∧
      u = ⟨old.id, b.name.getD old.name, b.description.getD old.description,
        prq, stq, b.supplier_id.getD old.supplier_id,
        (match b.status with
         | some s => Product.sanitizeStatus (some s)
         | none => old.status)⟩) := by
  unfold Product.update
  split
  · exact Or.inl ⟨by simp, rfl⟩
  · rename_i old hfind
    split
    · rename_i pv hpv
      split
      · exact Or.inl ⟨by simp, rfl⟩
      · rename_i p hp
        rcases Product.updateStock_shape id b items { old with price := p } with
          ⟨h1, h2⟩ | ⟨stq, u, hstq, hres, hu⟩
        · exact Or.inl ⟨h1, h2⟩
        · exact Or.inr ⟨old, p, stq, u, hfind, hp, hstq, hres, hu⟩
    · rcases Product.updateStock_shape id b items old with
        ⟨h1, h2⟩ | ⟨stq, u, hstq, hres, hu⟩
      · exact Or.inl ⟨h1, h2⟩
      · exact Or.inr ⟨old, old.price, stq, u, hfind, rfl, hstq, hres, hu⟩

/-- Case analysis of the product delete handler. -/
theorem Product.remove_shape_product (id : String) (items : List Product.Rec) :
    ((Product.remove id items).status = 404 ∧ (Product.remove id items).db = items ∧
      items.find? (fun x => x.id == id) = none) ∨
    ((Product.remove id items).status = 204 ∧
      (Product.remove id items).db = removeFirst (fun x => x.id == id) items) := by
  unfold Product.remove
  split
  · rename_i hfind
    exact Or.inl ⟨rfl, rfl, hfind⟩
  · exact Or.inr ⟨rfl, rfl⟩

/-- The product read-one handler never writes. -/
theorem Product.getById_db_product (id : String) (items : List Product.Rec) :
    (Product.getById id items).db = items := by
  unfold Product.getById
  split <;> rfl

/-- A product update on an absent id is a 404 leaving the collection
unchanged. -/
theorem Product.update_not_found_product (id : String) (b : Product.Body)
    (items : List Product.Rec) (h : items.find? (fun x => x.id == id) = none) :
    Product.update id b items = ⟨404, none, items⟩ := by
  unfold Product.update
  rw [h]

/-- Case analysis of the order create handler. -/
theorem Order.create_shape_order (newId : String) (now : ℤ) (b : Order.Body) (items : List Order.Rec) :
    ((Order.create newId now b items).status ≠ 201 ∧ (Order.create newId now b items).db = items) ∨
    (∃ total d novo,
      toAmount (b.total_amount.getD (.jnum 0)) = some total ∧
      (if truthyD b.date then parseDate (b.date.getD ⟨"", none⟩) else some now) = some d ∧
      Order.create newId now b items = ⟨201, some novo, items ++ [novo]⟩ ∧
      novo = ⟨newId, b.store_id.getD "", b.item.getD "", total,
        Order.sanitizeStatus b.status, formatSQLLike d⟩) := by
  unfold Order.create
  split
  · exact Or.inl ⟨by simp, rfl⟩
  · split
    · exact Or.inl ⟨by simp, rfl⟩
    · rename_i total htotal
      split
      · exact Or.inl ⟨by simp, rfl⟩
      · rename_i d hd
        exact Or.inr ⟨total, d, _, htotal, hd, rfl, rfl⟩

/-- The tail of the order update handler always succeeds with the
remaining fields overwritten. -/
theorem Order.updateFinish_eq (id : String) (b : Order.Body)
    (items : List Order.Rec) (mid : Order.Rec) :
    ∃ u, Order.updateFinish id b items mid
        = ⟨200, some u, setFirst (fun x => x.id == id) u items⟩ ∧
      u = ⟨mid.id, b.store_id.getD mid.store_id, b.item.getD mid.item,
        mid.total_amount,
        (match b.status with
         | some s => Order.sanitizeStatus (some s)
         | none => mid.status),
        mid.date⟩ :=
  ⟨_, rfl, rfl⟩

/-- Case analysis of the date step of the order update handler. -/
theorem Order.updateDate_shape (id : String) (b : Order.Body)
    (items : List Order.Rec) (mid : Order.Rec) :
    ((Order.updateDate id b items mid).status ≠ 200 ∧
      (Order.updateDate id b items mid).db = items) ∨
    (∃ dt u,
      (match b.date with
       | some dv => ∃ t, parseDate dv = some t ∧ dt = formatSQLLike t
       | none => dt = mid.date) ∧
      Order.updateDate id b items mid
        = ⟨200, some u, setFirst (fun x => x.id == id) u items⟩ ∧
      u = ⟨mid.id, b.store_id.getD mid.store_id, b.item.getD mid.item,
        mid.total_amount,
        (match b.status with
         | some s => Order.sanitizeStatus (some s)
         | none => mid.status),
        dt⟩) := by
  unfold Order.updateDate
  split
  · rename_i dv hdv
    split
    · exact Or.inl ⟨by simp, rfl⟩
    · rename_i t ht
      obtain ⟨u, hres, hu⟩ :=
        Order.updateFinish_eq id b items { mid with date := formatSQLLike t }
      exact Or.inr ⟨formatSQLLike t, u, ⟨t, ht, rfl⟩, hres, hu⟩
  · obtain ⟨u, hres, hu⟩ := Order.updateFinish_eq id b items mid
    exact Or.inr ⟨mid.date, u, rfl, hres, hu⟩

/-- Case analysis of the order update handler. -/
theorem Order.update_shape_order (id : String) (b : Order.Body) (items : List Order.Rec) :
    ((Order.update id b items).status ≠ 200 ∧ (Order.update id b items).db = items) ∨
    (∃ old amt dt u, items.find? (fun x => x.id == id) = some old ∧
      (match b.total_amount with
       | some tv => toAmount tv = some amt
       | none => amt = old.total_amount) ∧
      (match b.date with
       | some dv => ∃ t, parseDate dv = some t ∧ dt = formatSQLLike t
       | none => dt = old.date) ∧
      Order.update id b items = ⟨200, some u, setFirst (fun x => x.id == id) u items⟩ ∧
      u = ⟨old.id, b.store_id.getD old.store_id, b.item.getD old.item, amt,
        (match b.status with
         | some s => Order.sanitizeStatus (some s)
         | none => old.status),
        dt⟩) := by
  unfold Order.update
  split
  · exact Or.inl ⟨by simp, rfl⟩
  · rename_i old hfind
    split
    · rename_i tv htv
      split
      · exact Or.inl ⟨by simp, rfl⟩
      · rename_i t ht
        rcases Order.updateDate_shape id b items { old with total_amount := t } with
          ⟨h1, h2⟩ | ⟨dt, u, hdt, hres, hu⟩
        · exact Or.inl ⟨h1, h2⟩
        · exact Or.inr ⟨old, t, dt, u, hfind, ht, hdt, hres, hu⟩
    · rcases Order.updateDate_shape id b items old with
        ⟨h1, h2⟩ | ⟨dt, u, hdt, hres, hu⟩
      · exact Or.inl ⟨h1, h2⟩
      · exact Or.inr ⟨old, old.total_amount, dt, u, hfind, rfl, hdt, hres, hu⟩

/-- Case analysis of the order delete handler. -/
theorem Order.remove_shape_order (id : String) (items : List Order.Rec) :
    ((Order.remove id items).status = 404 ∧ (Order.remove id items).db = items ∧
      items.find? (fun x => x.id == id) = none) ∨
    ((Order.remove id items).status = 204 ∧
      (Order.remove id items).db = removeFirst (fun x => x.id == id) items) := by
  unfold Order.remove
  split
  · rename_i hfind
    exact Or.inl ⟨rfl, rfl, hfind⟩
  · exact Or.inr ⟨rfl, rfl⟩

/-- The order read-one handler never writes. -/
theorem Order.getById_db_order (id : String) (items : List Order.Rec) :
    (Order.getById id items).db = items := by
  unfold Order.getById
  split <;> rfl

/-- An order update on an absent id is a 404 leaving the collection
unchanged. -/
theorem Order.update_not_found_order (id : String) (b : Order.Body)
    (items : List Order.Rec) (h : items.find? (fun x => x.id == id) = none) :
    Order.update id b items = ⟨404, none, items⟩ := by
  unfold Order.update
  rw [h]

/-- Case analysis of the campaign create handler. -/
theorem Campaign.create_shape_campaign (newId : String) (b : Campaign.Body) (items : List Campaign.Rec) :
    ((Campaign.create newId b items).status ≠ 201 ∧ (Campaign.create newId b items).db = items) ∨
    (∃ sd ed pct novo,
      parseDate (b.start_date.getD ⟨"", none⟩) = some sd ∧
      parseDate (b.end_date.getD ⟨"", none⟩) = some ed ∧
      validPercent (b.discount_percentage.getD (.jnum 0)) = some pct ∧
      Campaign.create newId b items = ⟨201, some novo, items ++ [novo]⟩ ∧
      novo = ⟨newId, b.supplier_id.getD "", b.name.getD "",
        formatSQLLike sd, formatSQLLike ed, pct⟩) := by
  unfold Campaign.create
  split
  · exact Or.inl ⟨by simp, rfl⟩
  · split
    · rename_i sd ed hsd hed
      split
      · exact Or.inl ⟨by simp, rfl⟩
      · split
        · exact Or.inl ⟨by simp, rfl⟩
        · rename_i pct hpct
          split
          · exact Or.inl ⟨by simp, rfl⟩
          · exact Or.inr ⟨sd, ed, pct, _, hsd, hed, hpct, rfl, rfl⟩
    · exact Or.inl ⟨by simp, rfl⟩

/-- Case analysis of the conflict step of the campaign update handler. -/
theorem Campaign.updateConflict_shape (id : String) (b : Campaign.Body)
    (items : List Campaign.Rec) (mid : Campaign.Rec) (sd ed : Option ℤ) :
    ((Campaign.updateConflict id b items mid sd ed).status ≠ 200 ∧
      (Campaign.updateConflict id b items mid sd ed).db = items) ∨
    (∃ u, Campaign.updateConflict id b items mid sd ed
        = ⟨200, some u, setFirst (fun x => x.id == id) u items⟩ ∧
      u = ⟨mid.id, b.supplier_id.getD mid.supplier_id, b.name.getD mid.name,
        (match b.start_date with
         | some _ => formatSQLLike (sd.getD 0)
         | none => mid.start_date),
        (match b.end_date with
         | some _ => formatSQLLike (ed.getD 0)
         | none => mid.end_date),
        mid.discount_percentage⟩) := by
  unfold Campaign.updateConflict
  dsimp only
  split
  · exact Or.inl ⟨by simp, rfl⟩
  · exact Or.inr ⟨_, rfl, rfl⟩

/-- Case analysis of the date step of the campaign update handler. -/
theorem Campaign.updateDates_shape (id : String) (b : Campaign.Body)
    (items : List Campaign.Rec) (mid : Campaign.Rec) :
    ((Campaign.updateDates id b items mid).status ≠ 200 ∧
      (Campaign.updateDates id b items mid).db = items) ∨
    (∃ (sd ed : Option ℤ) (u : Campaign.Rec), Campaign.updateDates id b items mid
        = ⟨200, some u, setFirst (fun x => x.id == id) u items⟩ ∧
      u = ⟨mid.id, b.supplier_id.getD mid.supplier_id, b.name.getD mid.name,
        (match b.start_date with
         | some _ => formatSQLLike (sd.getD 0)
         | none => mid.start_date),
        (match b.end_date with
         | some _ => formatSQLLike (ed.getD 0)
         | none => mid.end_date),
        mid.discount_percentage⟩) := by
  unfold Campaign.updateDates
  dsimp only
  split
  · exact Or.inl ⟨by simp, rfl⟩
  · split
    · exact Or.inl ⟨by simp, rfl⟩
    · split
      · exact Or.inl ⟨by simp, rfl⟩
      · rcases Campaign.updateConflict_shape id b items mid
          (match b.start_date with
           | some v => parseDate v
           | none => parseDate mid.start_date)
          (match b.end_date with
           | some v => parseDate v
           | none => parseDate mid.end_date) with
          ⟨h1, h2⟩ | ⟨u, hres, hu⟩
        · exact Or.inl ⟨h1, h2⟩
        · exact Or.inr ⟨_, _, u, hres, hu⟩

/-- Case analysis of the campaign update handler. -/
theorem Campaign.update_shape_campaign (id : String) (b : Campaign.Body) (items : List Campaign.Rec) :
    ((Campaign.update id b items).status ≠ 200 ∧ (Campaign.update id b items).db = items) ∨
    (∃ (old : Campaign.Rec) (pct : ℚ) (sd ed : Option ℤ) (u : Campaign.Rec),
      items.find? (fun x => x.id == id) = some old ∧
      (match b.discount_percentage with
       | some dv => validPercent dv = some pct
       | none => pct = old.discount_percentage) ∧
      Campaign.update id b items = ⟨200, some u, setFirst (fun x => x.id == id) u items⟩ ∧
      u = ⟨old.id, b.supplier_id.getD old.supplier_id, b.name.getD old.name,
        (match b.start_date with
         | some _ => formatSQLLike (sd.getD 0)
         | none => old.start_date),
        (match b.end_date with
         | some _ => formatSQLLike (ed.getD 0)
         | none => old.end_date),
        pct⟩) := by
  unfold Campaign.update
  split
  · exact Or.inl ⟨by simp, rfl⟩
  · rename_i old hfind
    split
    · rename_i dv hdv
      split
      · exact Or.inl ⟨by simp, rfl⟩
      · rename_i pct hpct
        rcases Campaign.updateDates_shape id b items { old with discount_percentage := pct } with
          ⟨h1, h2⟩ | ⟨sd, ed, u, hres, hu⟩
        · exact Or.inl ⟨h1, h2⟩
        · exact Or.inr ⟨old, pct, sd, ed, u, hfind, hpct, hres, hu⟩
    · rcases Campaign.updateDates_shape id b items old with
        ⟨h1, h2⟩ | ⟨sd, ed, u, hres, hu⟩
      · exact Or.inl ⟨h1, h2⟩
      · exact Or.inr ⟨old, old.discount_percentage, sd, ed, u, hfind, rfl, hres, hu⟩

/-- Case analysis of the campaign delete handler. -/
theorem Campaign.remove_shape_campaign (id : String) (items : List Campaign.Rec) :
    ((Campaign.remove id items).status = 404 ∧ (Campaign.remove id items).db = items ∧
      items.find? (fun x => x.id == id) = none) ∨
    ((Campaign.remove id items).status = 204 ∧
      (Campaign.remove id items).db = removeFirst (fun x => x.id == id) items) := by
  unfold Campaign.remove
  split
  · rename_i hfind
    exact Or.inl ⟨rfl, rfl, hfind⟩
  · exact Or.inr ⟨rfl, rfl⟩

/-- The campaign read-one handler never writes. -/
theorem Campaign.getById_db_campaign (id : String) (items : List Campaign.Rec) :
    (Campaign.getById id items).db = items := by
  unfold Campaign.getById
  split <;> rfl

/-- A campaign update on an absent id is a 404 leaving the collection
unchanged. -/
theorem Campaign.update_not_found_campaign (id : String) (b : Campaign.Body)
    (items : List Campaign.Rec) (h : items.find? (fun x => x.id == id) = none) :
    Campaign.update id b items = ⟨404, none, items⟩ := by
  unfold Campaign.update
  rw [h]

/-- Case analysis of the users create handler. -/
theorem Users.create_shape_users (hash : String → String) (newId : String)
    (b : Users.Body) (users : List Users.Rec) :
    ((Users.create hash newId b users).status ≠ 201 ∧
      (Users.create hash newId b users).db = users) ∨
    (∃ novo, Users.create hash newId b users
        = ⟨201, some (.safe (Users.sanitizeUser novo)), users ++ [novo]⟩ ∧
      novo = ⟨newId, b.name.getD "", b.contact_email.getD "", b.user.getD "",
        hash (b.pwd.getD ""), Users.sanitizeLevel b.level,
        Users.sanitizeStatus b.status⟩) := by
  unfold Users.create
  split
  · exact Or.inl ⟨by simp, rfl⟩
  · split
    · exact Or.inl ⟨by simp, rfl⟩
    · split
      · exact Or.inl ⟨by simp, rfl⟩
      · split
        · exact Or.inl ⟨by simp, rfl⟩
        · exact Or.inr ⟨_, rfl, rfl⟩

/-- Case analysis of the users update handler. -/
theorem Users.update_shape_users (hash : String → String) (id : String)
    (b : Users.Body) (users : List Users.Rec) :
    ((Users.update hash id b users).status ≠ 200 ∧
      (Users.update hash id b users).db = users) ∨
    (∃ old u, users.find? (fun x => x.id == id) = some old ∧
      Users.update hash id b users
        = ⟨200, some (.safe (Users.sanitizeUser u)), setFirst (fun x => x.id == id) u users⟩ ∧
      u = ⟨old.id, b.name.getD old.name, b.contact_email.getD old.contact_email,
        b.user.getD old.user,
        (match b.pwd with
         | some p => hash p
         | none => old.pwd),
        (match b.level with
         | some l => Users.sanitizeLevel (some l)
         | none => old.level),
        (match b.status with
         | some s => Users.sanitizeStatus (some s)
         | none => old.status)⟩) := by
  unfold Users.update
  split
  · exact Or.inl ⟨by simp, rfl⟩
  · rename_i old hfind
    split
    · exact Or.inl ⟨by simp, rfl⟩
    · split
      · exact Or.inl ⟨by simp, rfl⟩
      · split
        · exact Or.inl ⟨by simp, rfl⟩
        · exact Or.inr ⟨old, _, hfind, rfl, rfl⟩

/-- Case analysis of the users delete handler. -/
theorem Users.remove_shape_users (id : String) (users : List Users.Rec) :
    ((Users.remove id users).status = 404 ∧ (Users.remove id users).db = users ∧
      users.find? (fun x => x.id == id) = none) ∨
    ((Users.remove id users).status = 204 ∧
      (Users.remove id users).db = removeFirst (fun x => x.id == id) users) := by
  unfold Users.remove
  split
  · rename_i hfind
    exact Or.inl ⟨rfl, rfl, hfind⟩
  · exact Or.inr ⟨rfl, rfl⟩

/-- Case analysis of the users read-one handler: on success the response
body is the full record, password hash included. -/
theorem Users.getById_shape (id : String) (users : List Users.Rec) :
    (Users.getById id users = ⟨404, none, users⟩ ∧
      users.find? (fun x => x.id == id) = none) ∨
    (∃ u, users.find? (fun x => x.id == id) = some u ∧
      Users.getById id users = ⟨200, some (.full u), users⟩) := by
  unfold Users.getById
  split
  · rename_i hfind
    exact Or.inl ⟨rfl, hfind⟩
  · rename_i u hfind
    exact Or.inr ⟨u, hfind, rfl⟩

/-- The users list handler never writes and always answers a sanitized
list. -/
theorem Users.list_eq (q : Option String) (users : List Users.Rec) :
    Users.list q users = ⟨200,
      some (.many ((if truthyS q then
        users.filter (fun u => includesJS (toLowerJS u.name) (toLowerJS (q.getD "")))
      else users).map Users.sanitizeUser)), users⟩ := rfl

/-- The login handler never writes. -/
theorem Users.login_db (hash : String → String) (b : Users.Body)
    (users : List Users.Rec) : (Users.login hash b users).db = users := by
  unfold Users.login
  split
  · rfl
  · split
    · rfl
    · split <;> rfl

/-- A users update on an absent id is a 404 leaving the collection
unchanged. -/
theorem Users.update_not_found_users (hash : String → String) (id : String)
    (b : Users.Body) (users : List Users.Rec)
    (h : users.find? (fun x => x.id == id) = none) :
    Users.update hash id b users = ⟨404, none, users⟩ := by
  unfold Users.update
  rw [h]

/-! ## Claims -/

/-- C1: the claim states that for every users collection and every List,
Get-by-id, Create and Update request the response body never contains the
`pwd` field.  The code contradicts it (and its own OpenAPI `User` response
schema, which has no `pwd` property): `GET /users/:id` answers
`res.json(u)` with the stored record as-is, so the response carries the
`pwd` key with the bcrypt hash, while List, Create and Update do strip
it.  Evaluated here on a one-user collection. -/
theorem C1_users_get_by_id_returns_pwd :
    (Users.getById "u1" [⟨"u1", "Ana", "ana@mail.com", "ana", "HASH-xyz", "user", "on"⟩]).status = 200 ∧
    (Users.getById "u1" [⟨"u1", "Ana", "ana@mail.com", "ana", "HASH-xyz", "user", "on"⟩]).body
      = some (.full ⟨"u1", "Ana", "ana@mail.com", "ana", "HASH-xyz", "user", "on"⟩) ∧
    Users.pwdField (.full ⟨"u1", "Ana", "ana@mail.com", "ana", "HASH-xyz", "user", "on"⟩)
      = some "HASH-xyz" ∧
    (Users.list none [⟨"u1", "Ana", "ana@mail.com", "ana", "HASH-xyz", "user", "on"⟩]).body
      = some (.many [⟨"u1", "Ana", "ana@mail.com", "ana", "user", "on"⟩]) ∧
    Users.pwdField (.many [⟨"u1", "Ana", "ana@mail.com", "ana", "user", "on"⟩]) = none ∧
    ((Users.create (fun s => String.append "h" s) "u2"
        ⟨some "Bob", some "b@c.de", some "bob", some "pw", none, none⟩ []).body.map
      Users.pwdField) = some none ∧
    ((Users.update (fun s => String.append "h" s) "u1"
        ⟨some "Ana2", none, none, none, none, none⟩
        [⟨"u1", "Ana", "ana@mail.com", "ana", "HASH-xyz", "user", "on"⟩]).body.map
      Users.pwdField) = some none := by
  decide

/-- C10: an order Create whose `total_amount` is the number `0` is
rejected with 400 by the truthiness-based required-field check (and the
collection is unchanged), even though `0` is a valid non-negative
amount. -/
theorem C10_order_create_zero_total_rejected (newId : String) (now : ℤ)
    (b : Order.Body) (items : List Order.Rec)
    (h : b.total_amount = some (.jnum 0)) :
    (Order.create newId now b items).status = 400 ∧
    (Order.create newId now b items).db = items := by
  have hcond : (!truthyS b.store_id || !truthyS b.item || !truthyN b.total_amount) = true := by
    rw [h]
    simp [truthyN, truthyNum]
  unfold Order.create
  rw [if_pos hcond]
  exact ⟨rfl, rfl⟩

/-- Witness for C10 at a fully concrete request. -/
theorem C10_order_create_zero_total_rejected_witness :
    (Order.create "ord-1" 0
      ⟨some "store-1", some "three widgets", some (.jnum 0), none, none⟩ []).status = 400 ∧
    (Order.create "ord-1" 0
      ⟨some "store-1", some "three widgets", some (.jnum 0), none, none⟩ []).db = [] :=
  C10_order_create_zero_total_rejected "ord-1" 0 _ [] rfl

/-- C7: for every one of the six entities, every collection with no
record carrying the requested id, and every payload, Update answers 404
and the persisted collection is unchanged. -/
theorem C7_update_missing_id_404 :
    (∀ (id : String) (b : Store.Body) (items : List Store.Rec),
      (∀ x ∈ items, x.id ≠ id) →
      (Store.update id b items).status = 404 ∧ (Store.update id b items).db = items) ∧
    (∀ (id : String) (b : Supplier.Body) (items : List Supplier.Rec),
      (∀ x ∈ items, x.id ≠ id) →
      (Supplier.update id b items).status = 404 ∧ (Supplier.update id b items).db = items) ∧
    (∀ (id : String) (b : Product.Body) (items : List Product.Rec),
      (∀ x ∈ items, x.id ≠ id) →
      (Product.update id b items).status = 404 ∧ (Product.update id b items).db = items) ∧
    (∀ (id : String) (b : Order.Body) (items : List Order.Rec),
      (∀ x ∈ items, x.id ≠ id) →
      (Order.update id b items).status = 404 ∧ (Order.update id b items).db = items) ∧
    (∀ (id : String) (b : Campaign.Body) (items : List Campaign.Rec),
      (∀ x ∈ items, x.id ≠ id) →
      (Campaign.update id b items).status = 404 ∧ (Campaign.update id b items).db = items) ∧
    (∀ (hash : String → String) (id : String) (b : Users.Body) (users : List Users.Rec),
      (∀ x ∈ users, x.id ≠ id) →
      (Users.update hash id b users).status = 404 ∧ (Users.update hash id b users).db = users) := by
  refine ⟨?_, ?_, ?_, ?_, ?_, ?_⟩
  · intro id b items h
    rw [Store.update_not_found_store id b items
      (List.find?_eq_none.2 (fun x hx => by simpa using h x hx))]
    exact ⟨rfl, rfl⟩
  · intro id b items h
    rw [Supplier.update_not_found_supplier id b items
      (List.find?_eq_none.2 (fun x hx => by simpa using h x hx))]
    exact ⟨rfl, rfl⟩
  · intro id b items h
    rw [Product.update_not_found_product id b items
      (List.find?_eq_none.2 (fun x hx => by simpa using h x hx))]
    exact ⟨rfl, rfl⟩
  · intro id b items h
    rw [Order.update_not_found_order id b items
      (List.find?_eq_none.2 (fun x hx => by simpa using h x hx))]
    exact ⟨rfl, rfl⟩
  · intro id b items h
    rw [Campaign.update_not_found_campaign id b items
      (List.find?_eq_none.2 (fun x hx => by simpa using h x hx))]
    exact ⟨rfl, rfl⟩
  · intro hash id b users h
    rw [Users.update_not_found_users hash id b users
      (List.find?_eq_none.2 (fun x hx => by simpa using h x hx))]
    exact ⟨rfl, rfl⟩

/-- Witness for C7 on concrete one-record collections and a missing id. -/
theorem C7_update_missing_id_404_witness :
    ((Store.update "zz" ⟨some "S", none, none, none, none, none⟩
        [⟨"s1", "A", "1", "", "", "a@b.co", "on"⟩]).status = 404 ∧
      (Store.update "zz" ⟨some "S", none, none, none, none, none⟩
        [⟨"s1", "A", "1", "", "", "a@b.co", "on"⟩]).db
        = [⟨"s1", "A", "1", "", "", "a@b.co", "on"⟩]) ∧
    ((Supplier.update "zz" ⟨none, none, none, none, none⟩ []).status = 404 ∧
      (Supplier.update "zz" ⟨none, none, none, none, none⟩ []).db = []) ∧
    ((Product.update "zz" ⟨none, none, none, none, none, none⟩ []).status = 404 ∧
      (Product.update "zz" ⟨none, none, none, none, none, none⟩ []).db = []) ∧
    ((Order.update "zz" ⟨none, none, none, none, none⟩ []).status = 404 ∧
      (Order.update "zz" ⟨none, none, none, none, none⟩ []).db = []) ∧
    ((Campaign.update "zz" ⟨none, none, none, none, none⟩ []).status = 404 ∧
      (Campaign.update "zz" ⟨none, none, none, none, none⟩ []).db = []) ∧
    ((Users.update (fun s => s) "zz" ⟨none, none, none, none, none, none⟩ []).status = 404 ∧
      (Users.update (fun s => s) "zz" ⟨none, none, none, none, none, none⟩ []).db = []) := by
  have h := C7_update_missing_id_404
  exact ⟨h.1 "zz" _ _ (by decide), h.2.1 "zz" _ _ (by simp),
    h.2.2.1 "zz" _ _ (by simp), h.2.2.2.1 "zz" _ _ (by simp),
    h.2.2.2.2.1 "zz" _ _ (by simp), h.2.2.2.2.2 _ "zz" _ _ (by simp)⟩

/-- C9: error atomicity.  Whenever any handler of any entity responds
400, 401, 404 or 409, the persisted collection equals the one before the
request: the write-all step is never reached on an error path, even in
the product and campaign update handlers, which mutate the in-memory copy
of the target before the conflict check.  Read handlers never write at
all. -/
theorem C9_error_responses_leave_db_unchanged :
    (∀ (newId : String) (b : Store.Body) (items : List Store.Rec),
      ((Store.create newId b items).status = 400 ∨ (Store.create newId b items).status = 401 ∨ (Store.create newId b items).status = 404 ∨ (Store.create newId b items).status = 409) → (Store.create newId b items).db = items) ∧
    (∀ (newId : String) (b : Supplier.Body) (items : List Supplier.Rec),
      ((Supplier.create newId b items).status = 400 ∨ (Supplier.create newId b items).status = 401 ∨ (Supplier.create newId b items).status = 404 ∨ (Supplier.create newId b items).status = 409) → (Supplier.create newId b items).db = items) ∧
    (∀ (newId : String) (b : Product.Body) (items : List Product.Rec),
      ((Product.create newId b items).status = 400 ∨ (Product.create newId b items).status = 401 ∨ (Product.create newId b items).status = 404 ∨ (Product.create newId b items).status = 409) → (Product.create newId b items).db = items) ∧
    (∀ (newId : String) (now : ℤ) (b : Order.Body) (items : List Order.Rec),
      ((Order.create newId now b items).status = 400 ∨ (Order.create newId now b items).status = 401 ∨ (Order.create newId now b items).status = 404 ∨ (Order.create newId now b items).status = 409) → (Order.create newId now b items).db = items) ∧
    (∀ (newId : String) (b : Campaign.Body) (items : List Campaign.Rec),
      ((Campaign.create newId b items).status = 400 ∨ (Campaign.create newId b items).status = 401 ∨ (Campaign.create newId b items).status = 404 ∨ (Campaign.create newId b items).status = 409) → (Campaign.create newId b items).db = items) ∧
    (∀ (hash : String → String) (newId : String) (b : Users.Body) (users : List Users.Rec),
      ((Users.create hash newId b users).status = 400 ∨ (Users.create hash newId b users).status = 401 ∨ (Users.create hash newId b users).status = 404 ∨ (Users.create hash newId b users).status = 409) → (Users.create hash newId b users).db = users) ∧
    (∀ (id : String) (b : Store.Body) (items : List Store.Rec),
      ((Store.update id b items).status = 400 ∨ (Store.update id b items).status = 401 ∨ (Store.update id b items).status = 404 ∨ (Store.update id b items).status = 409) → (Store.update id b items).db = items) ∧
    (∀ (id : String) (b : Supplier.Body) (items : List Supplier.Rec),
      ((Supplier.update id b items).status = 400 ∨ (Supplier.update id b items).status = 401 ∨ (Supplier.update id b items).status = 404 ∨ (Supplier.update id b items).status = 409) → (Supplier.update id b items).db = items) ∧
    (∀ (id : String) (b : Product.Body) (items : List Product.Rec),
      ((Product.update id b items).status = 400 ∨ (Product.update id b items).status = 401 ∨ (Product.update id b items).status = 404 ∨ (Product.update id b items).status = 409) → (Product.update id b items).db = items) ∧
    (∀ (id : String) (b : Order.Body) (items : List Order.Rec),
      ((Order.update id b items).status = 400 ∨ (Order.update id b items).status = 401 ∨ (Order.update id b items).status = 404 ∨ (Order.update id b items).status = 409) → (Order.update id b items).db = items) ∧
    (∀ (id : String) (b : Campaign.Body) (items : List Campaign.Rec),
      ((Campaign.update id b items).status = 400 ∨ (Campaign.update id b items).status = 401 ∨ (Campaign.update id b items).status = 404 ∨ (Campaign.update id b items).status = 409) → (Campaign.update id b items).db = items) ∧
    (∀ (hash : String → String) (id : String) (b : Users.Body) (users : List Users.Rec),
      ((Users.update hash id b users).status = 400 ∨ (Users.update hash id b users).status = 401 ∨ (Users.update hash id b users).status = 404 ∨ (Users.update hash id b users).status = 409) → (Users.update hash id b users).db = users) ∧
    (∀ (id : String) (items : List Store.Rec),
      ((Store.remove id items).status = 400 ∨ (Store.remove id items).status = 401 ∨ (Store.remove id items).status = 404 ∨ (Store.remove id items).status = 409) → (Store.remove id items).db = items) ∧
    (∀ (id : String) (items : List Supplier.Rec),
      ((Supplier.remove id items).status = 400 ∨ (Supplier.remove id items).status = 401 ∨ (Supplier.remove id items).status = 404 ∨ (Supplier.remove id items).status = 409) → (Supplier.remove id items).db = items) ∧
    (∀ (id : String) (items : List Product.Rec),
      ((Product.remove id items).status = 400 ∨ (Product.remove id items).status = 401 ∨ (Product.remove id items).status = 404 ∨ (Product.remove id items).status = 409) → (Product.remove id items).db = items) ∧
    (∀ (id : String) (items : List Order.Rec),
      ((Order.remove id items).status = 400 ∨ (Order.remove id items).status = 401 ∨ (Order.remove id items).status = 404 ∨ (Order.remove id items).status = 409) → (Order.remove id items).db = items) ∧
    (∀ (id : String) (items : List Campaign.Rec),
      ((Campaign.remove id items).status = 400 ∨ (Campaign.remove id items).status = 401 ∨ (Campaign.remove id items).status = 404 ∨ (Campaign.remove id items).status = 409) → (Campaign.remove id items).db = items) ∧
    (∀ (id : String) (items : List Users.Rec),
      ((Users.remove id items).status = 400 ∨ (Users.remove id items).status = 401 ∨ (Users.remove id items).status = 404 ∨ (Users.remove id items).status = 409) → (Users.remove id items).db = items) ∧
    (∀ (id : String) (items : List Store.Rec), (Store.getById id items).db = items) ∧
    (∀ (id : String) (items : List Supplier.Rec), (Supplier.getById id items).db = items) ∧
    (∀ (id : String) (items : List Product.Rec), (Product.getById id items).db = items) ∧
    (∀ (id : String) (items : List Order.Rec), (Order.getById id items).db = items) ∧
    (∀ (id : String) (items : List Campaign.Rec), (Campaign.getById id items).db = items) ∧
    (∀ (id : String) (users : List Users.Rec), (Users.getById id users).db = users) ∧
    (∀ (hash : String → String) (b : Users.Body) (users : List Users.Rec), (Users.login hash b users).db = users) := by
  refine ⟨?_, ?_, ?_, ?_, ?_, ?_, ?_, ?_, ?_, ?_, ?_, ?_, ?_, ?_, ?_, ?_, ?_, ?_, ?_, ?_, ?_, ?_, ?_, ?_, ?_⟩
  · intro newId b items h
    rcases Store.create_shape_store newId b items with ⟨_, hdb⟩ | ⟨novo, hres, _⟩
    · exact hdb
    · rw [hres] at h
      simp at h
  · intro newId b items h
    rcases Supplier.create_shape_supplier newId b items with ⟨_, hdb⟩ | ⟨novo, hres, _, _⟩
    · exact hdb
    · rw [hres] at h
      simp at h
  · intro newId b items h
    rcases Product.create_shape_product newId b items with ⟨_, hdb⟩ | ⟨p, s, novo, _, _, hres, _⟩
    · exact hdb
    · rw [hres] at h
      simp at h
  · intro newId now b items h
    rcases Order.create_shape_order newId now b items with ⟨_, hdb⟩ | ⟨t, d, novo, _, _, hres, _⟩
    · exact hdb
    · rw [hres] at h
      simp at h
  · intro newId b items h
    rcases Campaign.create_shape_campaign newId b items with ⟨_, hdb⟩ | ⟨sd, ed, pct, novo, _, _, _, hres, _⟩
    · exact hdb
    · rw [hres] at h
      simp at h
  · intro hash newId b users h
    rcases Users.create_shape_users hash newId b users with ⟨_, hdb⟩ | ⟨novo, hres, _⟩
    · exact hdb
    · rw [hres] at h
      simp at h
  · intro id b items h
    rcases Store.update_shape_store id b items with ⟨_, hdb⟩ | ⟨old, u, _, hres, _⟩
    · exact hdb
    · rw [hres] at h
      simp at h
  · intro id b items h
    rcases Supplier.update_shape_supplier id b items with ⟨_, hdb⟩ | ⟨old, u, _, hres, _, _⟩
    · exact hdb
    · rw [hres] at h
      simp at h
  · intro id b items h
    rcases Product.update_shape_product id b items with ⟨_, hdb⟩ | ⟨old, p, s, u, _, _, _, hres, _⟩
    · exact hdb
    · rw [hres] at h
      simp at h
  · intro id b items h
    rcases Order.update_shape_order id b items with ⟨_, hdb⟩ | ⟨old, a, dt, u, _, _, _, hres, _⟩
    · exact hdb
    · rw [hres] at h
      simp at h
  · intro id b items h
    rcases Campaign.update_shape_campaign id b items with ⟨_, hdb⟩ | ⟨old, pct, sd, ed, u, _, _, hres, _⟩
    · exact hdb
    · rw [hres] at h
      simp at h
  · intro hash id b users h
    rcases Users.update_shape_users hash id b users with ⟨_, hdb⟩ | ⟨old, u, _, hres, _⟩
    · exact hdb
    · rw [hres] at h
      simp at h
  · intro id items h
    rcases Store.remove_shape_store id items with ⟨_, hdb, _⟩ | ⟨hst, _⟩
    · exact hdb
    · rcases h with h | h | h | h <;> (rw [hst] at h; simp at h)
  · intro id items h
    rcases Supplier.remove_shape_supplier id items with ⟨_, hdb, _⟩ | ⟨hst, _⟩
    · exact hdb
    · rcases h with h | h | h | h <;> (rw [hst] at h; simp at h)
  · intro id items h
    rcases Product.remove_shape_product id items with ⟨_, hdb, _⟩ | ⟨hst, _⟩
    · exact hdb
    · rcases h with h | h | h | h <;> (rw [hst] at h; simp at h)
  · intro id items h
    rcases Order.remove_shape_order id items with ⟨_, hdb, _⟩ | ⟨hst, _⟩
    · exact hdb
    · rcases h with h | h | h | h <;> (rw [hst] at h; simp at h)
  · intro id items h
    rcases Campaign.remove_shape_campaign id items with ⟨_, hdb, _⟩ | ⟨hst, _⟩
    · exact hdb
    · rcases h with h | h | h | h <;> (rw [hst] at h; simp at h)
  · intro id items h
    rcases Users.remove_shape_users id items with ⟨_, hdb, _⟩ | ⟨hst, _⟩
    · exact hdb
    · rcases h with h | h | h | h <;> (rw [hst] at h; simp at h)
  · exact Store.getById_db_store
  · exact Supplier.getById_db_supplier
  · exact Product.getById_db_product
  · exact Order.getById_db_order
  · exact Campaign.getById_db_campaign
  · intro id users
    rcases Users.getById_shape id users with ⟨hres, _⟩ | ⟨u, _, hres⟩ <;> rw [hres]
  · exact Users.login_db

/-- Witness for C9: concrete 400/404 responses across all entities leave
the (empty) collection untouched. -/
theorem C9_error_responses_leave_db_unchanged_witness :
    (Store.create "w1" ⟨none, none, none, none, none, none⟩ []).db = [] ∧
    (Supplier.create "w2" ⟨none, none, none, none, none⟩ []).db = [] ∧
    (Product.create "w3" ⟨none, none, none, none, none, none⟩ []).db = [] ∧
    (Order.create "w4" 7 ⟨none, none, none, none, none⟩ []).db = [] ∧
    (Campaign.create "w5" ⟨none, none, none, none, none⟩ []).db = [] ∧
    (Users.create (fun s => s) "w6" ⟨none, none, none, none, none, none⟩ []).db = [] ∧
    (Store.update "w1" ⟨none, none, none, none, none, none⟩ []).db = [] ∧
    (Supplier.update "w2" ⟨none, none, none, none, none⟩ []).db = [] ∧
    (Product.update "w3" ⟨none, none, none, none, none, none⟩ []).db = [] ∧
    (Order.update "w4" ⟨none, none, none, none, none⟩ []).db = [] ∧
    (Campaign.update "w5" ⟨none, none, none, none, none⟩ []).db = [] ∧
    (Users.update (fun s => s) "w6" ⟨none, none, none, none, none, none⟩ []).db = [] ∧
    (Store.remove "w9" []).db = [] ∧
    (Supplier.remove "w9" []).db = [] ∧
    (Product.remove "w9" []).db = [] ∧
    (Order.remove "w9" []).db = [] ∧
    (Campaign.remove "w9" []).db = [] ∧
    (Users.remove "w9" []).db = [] := by
  have h := C9_error_responses_leave_db_unchanged
  exact ⟨h.1 "w1" _ [] (by decide),
    h.2.1 "w2" _ [] (by decide),
    h.2.2.1 "w3" _ [] (by decide),
    h.2.2.2.1 "w4" 7 _ [] (by decide),
    h.2.2.2.2.1 "w5" _ [] (by decide),
    h.2.2.2.2.2.1 (fun s => s) "w6" _ [] (by decide),
    h.2.2.2.2.2.2.1 "w1" _ [] (by decide),
    h.2.2.2.2.2.2.2.1 "w2" _ [] (by decide),
    h.2.2.2.2.2.2.2.2.1 "w3" _ [] (by decide),
    h.2.2.2.2.2.2.2.2.2.1 "w4" _ [] (by decide),
    h.2.2.2.2.2.2.2.2.2.2.1 "w5" _ [] (by decide),
    h.2.2.2.2.2.2.2.2.2.2.2.1 (fun s => s) "w6" _ [] (by decide),
    h.2.2.2.2.2.2.2.2.2.2.2.2.1 "w9" [] (by decide),
    h.2.2.2.2.2.2.2.2.2.2.2.2.2.1 "w9" [] (by decide),
    h.2.2.2.2.2.2.2.2.2.2.2.2.2.2.1 "w9" [] (by decide),
    h.2.2.2.2.2.2.2.2.2.2.2.2.2.2.2.1 "w9" [] (by decide),
    h.2.2.2.2.2.2.2.2.2.2.2.2.2.2.2.2.1 "w9" [] (by decide),
    h.2.2.2.2.2.2.2.2.2.2.2.2.2.2.2.2.2.1 "w9" [] (by decide)⟩

/-! ### Enum fields never change the response status -/

/-- The store create status code does not depend on the `status` field. -/
theorem Store.create_status_indep_store (newId : String) (b : Store.Body)
    (items : List Store.Rec) (v : Option String) :
    (Store.create newId { b with status := v } items).status
      = (Store.create newId b items).status := by
  unfold Store.create
  dsimp only
  split_ifs <;> rfl

/-- The store update status code does not depend on the `status` field. -/
theorem Store.update_status_indep_store (id : String) (b : Store.Body)
    (items : List Store.Rec) (v : Option String) :
    (Store.update id { b with status := v } items).status
      = (Store.update id b items).status := by
  unfold Store.update
  dsimp only
  cases items.find? (fun x => x.id == id) with
  | none => rfl
  | some old =>
    dsimp only
    split_ifs <;> rfl

/-- The supplier create status code does not depend on the `status`
field. -/
theorem Supplier.create_status_indep_supplier (newId : String) (b : Supplier.Body)
    (items : List Supplier.Rec) (v : Option String) :
    (Supplier.create newId { b with status := v } items).status
      = (Supplier.create newId b items).status := by
  unfold Supplier.create
  dsimp only
  split_ifs <;> rfl

/-- The supplier update status code does not depend on the `status`
field. -/
theorem Supplier.update_status_indep_supplier (id : String) (b : Supplier.Body)
    (items : List Supplier.Rec) (v : Option String) :
    (Supplier.update id { b with status := v } items).status
      = (Supplier.update id b items).status := by
  unfold Supplier.update
  dsimp only
  cases items.find? (fun x => x.id == id) with
  | none => rfl
  | some old =>
    dsimp only
    split_ifs <;> rfl

/-- The product create status code does not depend on the `status`
field. -/
theorem Product.create_status_indep_product (newId : String) (b : Product.Body)
    (items : List Product.Rec) (v : Option String) :
    (Product.create newId { b with status := v } items).status
      = (Product.create newId b items).status := by
  unfold Product.create
  dsimp only
  by_cases h : (!truthyS b.name || b.price.isNone || b.stock_quantity.isNone ||
      !truthyS b.supplier_id) = true
  · simp only [if_pos h]
  · simp only [if_neg h]
    cases toPrice (b.price.getD (NumIn.jnum 0)) with
    | none => rfl
    | some p =>
      dsimp only
      cases toInt (b.stock_quantity.getD (NumIn.jnum 0)) with
      | none => rfl
      | some s =>
        dsimp only
        split_ifs <;> rfl

/-- The product update tail status code does not depend on the `status`
field. -/
theorem Product.updateFinish_status_indep (id : String) (b : Product.Body)
    (items : List Product.Rec) (mid : Product.Rec) (v : Option String) :
    (Product.updateFinish id { b with status := v } items mid).status
      = (Product.updateFinish id b items mid).status := by
  unfold Product.updateFinish
  dsimp only
  split_ifs <;> rfl

/-- The product update stock step status code does not depend on the
`status` field. -/
theorem Product.updateStock_status_indep (id : String) (b : Product.Body)
    (items : List Product.Rec) (mid : Product.Rec) (v : Option String) :
    (Product.updateStock id { b with status := v } items mid).status
      = (Product.updateStock id b items mid).status := by
  unfold Product.updateStock
  dsimp only
  cases b.stock_quantity with
  | none => exact Product.updateFinish_status_indep id b items mid v
  | some sv =>
    dsimp only
    cases toInt sv with
    | none => rfl
    | some s => exact Product.updateFinish_status_indep id b items _ v

/-- The product update status code does not depend on the `status`
field. -/
theorem Product.update_status_indep_product (id : String) (b : Product.Body)
    (items : List Product.Rec) (v : Option String) :
    (Product.update id { b with status := v } items).status
      = (Product.update id b items).status := by
  unfold Product.update
  dsimp only
  cases items.find? (fun x => x.id == id) with
  | none => rfl
  | some old =>
    dsimp only
    cases b.price with
    | none => exact Product.updateStock_status_indep id b items old v
    | some pv =>
      dsimp only
      cases toPrice pv with
      | none => rfl
      | some p => exact Product.updateStock_status_indep id b items _ v

/-- The order create status code does not depend on the `status` field. -/
theorem Order.create_status_indep_order (newId : String) (now : ℤ) (b : Order.Body)
    (items : List Order.Rec) (v : Option String) :
    (Order.create newId now { b with status := v } items).status
      = (Order.create newId now b items).status := by
  unfold Order.create
  dsimp only
  by_cases h : (!truthyS b.store_id || !truthyS b.item || !truthyN b.total_amount) = true
  · simp only [if_pos h]
  · simp only [if_neg h]
    cases toAmount (b.total_amount.getD (NumIn.jnum 0)) with
    | none => rfl
    | some total =>
      dsimp only
      cases (if truthyD b.date then parseDate (b.date.getD ⟨"", none⟩) else some now) with
      | none => rfl
      | some d => rfl

/-- The order update date step status code does not depend on the
`status` field. -/
theorem Order.updateDate_status_indep (id : String) (b : Order.Body)
    (items : List Order.Rec) (mid : Order.Rec) (v : Option String) :
    (Order.updateDate id { b with status := v } items mid).status
      = (Order.updateDate id b items mid).status := by
  unfold Order.updateDate
  dsimp only
  cases b.date with
  | none => rfl
  | some dv =>
    dsimp only
    cases parseDate dv with
    | none => rfl
    | some t => rfl

/-- The order update status code does not depend on the `status` field. -/
theorem Order.update_status_indep_order (id : String) (b : Order.Body)
    (items : List Order.Rec) (v : Option String) :
    (Order.update id { b with status := v } items).status
      = (Order.update id b items).status := by
  unfold Order.update
  dsimp only
  cases items.find? (fun x => x.id == id) with
  | none => rfl
  | some old =>
    dsimp only
    cases b.total_amount with
    | none => exact Order.updateDate_status_indep id b items old v
    | some tv =>
      dsimp only
      cases toAmount tv with
      | none => rfl
      | some t => exact Order.updateDate_status_indep id b items _ v

/-- The users create status code does not depend on the `level` and
`status` fields. -/
theorem Users.create_enum_indep (hash : String → String) (newId : String)
    (b : Users.Body) (users : List Users.Rec) (lv v : Option String) :
    (Users.create hash newId { b with level := lv, status := v } users).status
      = (Users.create hash newId b users).status := by
  unfold Users.create
  dsimp only
  split_ifs <;> rfl

/-- The users update status code does not depend on the `level` and
`status` fields. -/
theorem Users.update_enum_indep (hash : String → String) (id : String)
    (b : Users.Body) (users : List Users.Rec) (lv v : Option String) :
    (Users.update hash id { b with level := lv, status := v } users).status
      = (Users.update hash id b users).status := by
  unfold Users.update
  dsimp only
  cases users.find? (fun x => x.id == id) with
  | none => rfl
  | some old =>
    dsimp only
    split_ifs <;> rfl

/-- C5 counterexample: the claim says a missing enum value always makes
the stored value the default, but on Update a missing `status` keeps the
record's previous value: updating a supplier whose status is `off` with
an empty body succeeds (200) and stores `off`, not the default `on`. -/
theorem C5_counterexample :
    (Supplier.update "s1" ⟨none, none, none, none, none⟩
      [⟨"s1", "Norte Ltda", "", "norte@x.com", "", "off"⟩]).status = 200 ∧
    ((Supplier.update "s1" ⟨none, none, none, none, none⟩
      [⟨"s1", "Norte Ltda", "", "norte@x.com", "", "off"⟩]).db.map Supplier.Rec.status)
      = ["off"] ∧
    ("off" : String) ≠ "on" := by
  decide

/-- C5 (amended): an invalid or missing enum value never causes an error
response (the status code of Create/Update does not depend on the enum
field); each sanitizer keeps a member of its enum and replaces anything
else by the default; on Create the stored value is the sanitized input;
on Update a present value is sanitized the same way while an absent value
keeps the record's previous value. -/
theorem C5_enum_sanitization :
    ((∀ s : String, ((s = "on" ∨ s = "off") → Store.sanitizeStatus (some s) = s) ∧
      (¬(s = "on" ∨ s = "off") → Store.sanitizeStatus (some s) = "on")) ∧ Store.sanitizeStatus none = "on") ∧
    ((∀ s : String, ((s = "on" ∨ s = "off") → Supplier.sanitizeStatus (some s) = s) ∧
      (¬(s = "on" ∨ s = "off") → Supplier.sanitizeStatus (some s) = "on")) ∧ Supplier.sanitizeStatus none = "on") ∧
    ((∀ s : String, ((s = "on" ∨ s = "off") → Product.sanitizeStatus (some s) = s) ∧
      (¬(s = "on" ∨ s = "off") → Product.sanitizeStatus (some s) = "on")) ∧ Product.sanitizeStatus none = "on") ∧
    ((∀ s : String, ((s = "on" ∨ s = "off") → Users.sanitizeStatus (some s) = s) ∧
      (¬(s = "on" ∨ s = "off") → Users.sanitizeStatus (some s) = "on")) ∧ Users.sanitizeStatus none = "on") ∧
    ((∀ s : String, ((s = "Pending" ∨ s = "Shipped" ∨ s = "Delivered") → Order.sanitizeStatus (some s) = s) ∧
      (¬(s = "Pending" ∨ s = "Shipped" ∨ s = "Delivered") → Order.sanitizeStatus (some s) = "Pending")) ∧ Order.sanitizeStatus none = "Pending") ∧
    ((∀ s : String, ((s = "admin" ∨ s = "user") → Users.sanitizeLevel (some s) = s) ∧
      (¬(s = "admin" ∨ s = "user") → Users.sanitizeLevel (some s) = "user")) ∧ Users.sanitizeLevel none = "user") ∧
    (∀ (newId : String) (b : Store.Body) (items : List Store.Rec),
      (Store.create newId b items).status = 201 →
      ∃ novo, (Store.create newId b items).db = items ++ [novo] ∧ novo.status = Store.sanitizeStatus b.status) ∧
    (∀ (newId : String) (b : Supplier.Body) (items : List Supplier.Rec),
      (Supplier.create newId b items).status = 201 →
      ∃ novo, (Supplier.create newId b items).db = items ++ [novo] ∧ novo.status = Supplier.sanitizeStatus b.status) ∧
    (∀ (newId : String) (b : Product.Body) (items : List Product.Rec),
      (Product.create newId b items).status = 201 →
      ∃ novo, (Product.create newId b items).db = items ++ [novo] ∧ novo.status = Product.sanitizeStatus b.status) ∧
    (∀ (newId : String) (now : ℤ) (b : Order.Body) (items : List Order.Rec),
      (Order.create newId now b items).status = 201 →
      ∃ novo, (Order.create newId now b items).db = items ++ [novo] ∧ novo.status = Order.sanitizeStatus b.status) ∧
    (∀ (hash : String → String) (newId : String) (b : Users.Body) (users : List Users.Rec),
      (Users.create hash newId b users).status = 201 →
      ∃ novo, (Users.create hash newId b users).db = users ++ [novo] ∧ novo.level = Users.sanitizeLevel b.level ∧ novo.status = Users.sanitizeStatus b.status) ∧
    (∀ (id : String) (b : Store.Body) (items : List Store.Rec),
      (Store.update id b items).status = 200 →
      ∃ old u, items.find? (fun x => x.id == id) = some old ∧
        (Store.update id b items).db = setFirst (fun x => x.id == id) u items ∧ u.status = (match b.status with | some s => Store.sanitizeStatus (some s) | none => old.status)) ∧
    (∀ (id : String) (b : Supplier.Body) (items : List Supplier.Rec),
      (Supplier.update id b items).status = 200 →
      ∃ old u, items.find? (fun x => x.id == id) = some old ∧
        (Supplier.update id b items).db = setFirst (fun x => x.id == id) u items ∧ u.status = (match b.status with | some s => Supplier.sanitizeStatus (some s) | none => old.status)) ∧
    (∀ (id : String) (b : Product.Body) (items : List Product.Rec),
      (Product.update id b items).status = 200 →
      ∃ old u, items.find? (fun x => x.id == id) = some old ∧
        (Product.update id b items).db = setFirst (fun x => x.id == id) u items ∧ u.status = (match b.status with | some s => Product.sanitizeStatus (some s) | none => old.status)) ∧
    (∀ (id : String) (b : Order.Body) (items : List Order.Rec),
      (Order.update id b items).status = 200 →
      ∃ old u, items.find? (fun x => x.id == id) = some old ∧
        (Order.update id b items).db = setFirst (fun x => x.id == id) u items ∧ u.status = (match b.status with | some s => Order.sanitizeStatus (some s) | none => old.status)) ∧
    (∀ (hash : String → String) (id : String) (b : Users.Body) (users : List Users.Rec),
      (Users.update hash id b users).status = 200 →
      ∃ old u, users.find? (fun x => x.id == id) = some old ∧
        (Users.update hash id b users).db = setFirst (fun x => x.id == id) u users ∧ u.level = (match b.level with | some l => Users.sanitizeLevel (some l) | none => old.level) ∧ u.status = (match b.status with | some s => Users.sanitizeStatus (some s) | none => old.status)) ∧
    (∀ (newId : String) (b : Store.Body) (items : List Store.Rec) (v : Option String),
      (Store.create newId { b with status := v } items).status = (Store.create newId b items).status) ∧
    (∀ (id : String) (b : Store.Body) (items : List Store.Rec) (v : Option String),
      (Store.update id { b with status := v } items).status = (Store.update id b items).status) ∧
    (∀ (newId : String) (b : Supplier.Body) (items : List Supplier.Rec) (v : Option String),
      (Supplier.create newId { b with status := v } items).status = (Supplier.create newId b items).status) ∧
    (∀ (id : String) (b : Supplier.Body) (items : List Supplier.Rec) (v : Option String),
      (Supplier.update id { b with status := v } items).status = (Supplier.update id b items).status) ∧
    (∀ (newId : String) (b : Product.Body) (items : List Product.Rec) (v : Option String),
      (Product.create newId { b with status := v } items).status = (Product.create newId b items).status) ∧
    (∀ (id : String) (b : Product.Body) (items : List Product.Rec) (v : Option String),
      (Product.update id { b with status := v } items).status = (Product.update id b items).status) ∧
    (∀ (newId : String) (now : ℤ) (b : Order.Body) (items : List Order.Rec) (v : Option String),
      (Order.create newId now { b with status := v } items).status = (Order.create newId now b items).status) ∧
    (∀ (id : String) (b : Order.Body) (items : List Order.Rec) (v : Option String),
      (Order.update id { b with status := v } items).status = (Order.update id b items).status) ∧
    (∀ (hash : String → String) (newId : String) (b : Users.Body) (users : List Users.Rec) (lv v : Option String),
      (Users.create hash newId { b with level := lv, status := v } users).status = (Users.create hash newId b users).status) ∧
    (∀ (hash : String → String) (id : String) (b : Users.Body) (users : List Users.Rec) (lv v : Option String),
      (Users.update hash id { b with level := lv, status := v } users).status = (Users.update hash id b users).status) := by
  refine ⟨?_, ?_, ?_, ?_, ?_, ?_, ?_, ?_, ?_, ?_, ?_, ?_, ?_, ?_, ?_, ?_, ?_, ?_, ?_, ?_, ?_, ?_, ?_, ?_, ?_, ?_⟩
  · refine ⟨fun s => ⟨?_, ?_⟩, rfl⟩
    · rintro (rfl | rfl) <;> rfl
    · intro h
      have h0 : s ≠ "on" := fun c => h (by simp [c])
      have h1 : s ≠ "off" := fun c => h (by simp [c])
      simp [Store.sanitizeStatus, h0, h1]
  · refine ⟨fun s => ⟨?_, ?_⟩, rfl⟩
    · rintro (rfl | rfl) <;> rfl
    · intro h
      have h0 : s ≠ "on" := fun c => h (by simp [c])
      have h1 : s ≠ "off" := fun c => h (by simp [c])
      simp [Supplier.sanitizeStatus, h0, h1]
  · refine ⟨fun s => ⟨?_, ?_⟩, rfl⟩
    · rintro (rfl | rfl) <;> rfl
    · intro h
      have h0 : s ≠ "on" := fun c => h (by simp [c])
      have h1 : s ≠ "off" := fun c => h (by simp [c])
      simp [Product.sanitizeStatus, h0, h1]
  · refine ⟨fun s => ⟨?_, ?_⟩, rfl⟩
    · rintro (rfl | rfl) <;> rfl
    · intro h
      have h0 : s ≠ "on" := fun c => h (by simp [c])
      have h1 : s ≠ "off" := fun c => h (by simp [c])
      simp [Users.sanitizeStatus, h0, h1]
  · refine ⟨fun s => ⟨?_, ?_⟩, rfl⟩
    · rintro (rfl | rfl | rfl) <;> rfl
    · intro h
      have h0 : s ≠ "Pending" := fun c => h (by simp [c])
      have h1 : s ≠ "Shipped" := fun c => h (by simp [c])
      have h2 : s ≠ "Delivered" := fun c => h (by simp [c])
      simp [Order.sanitizeStatus, h0, h1, h2]
  · refine ⟨fun s => ⟨?_, ?_⟩, rfl⟩
    · rintro (rfl | rfl) <;> rfl
    · intro h
      have h0 : s ≠ "admin" := fun c => h (by simp [c])
      have h1 : s ≠ "user" := fun c => h (by simp [c])
      simp [Users.sanitizeLevel, h0, h1]
  · intro newId b items h
    rcases Store.create_shape_store newId b items with ⟨hne, _⟩ | ⟨novo, hres, hnovo⟩
    · exact absurd h hne
    · exact ⟨novo, by rw [hres], by rw [hnovo]⟩
  · intro newId b items h
    rcases Supplier.create_shape_supplier newId b items with ⟨hne, _⟩ | ⟨novo, hres, hnovo, _⟩
    · exact absurd h hne
    · exact ⟨novo, by rw [hres], by rw [hnovo]⟩
  · intro newId b items h
    rcases Product.create_shape_product newId b items with ⟨hne, _⟩ | ⟨p, st, novo, _, _, hres, hnovo⟩
    · exact absurd h hne
    · exact ⟨novo, by rw [hres], by rw [hnovo]⟩
  · intro newId now b items h
    rcases Order.create_shape_order newId now b items with ⟨hne, _⟩ | ⟨t, d, novo, _, _, hres, hnovo⟩
    · exact absurd h hne
    · exact ⟨novo, by rw [hres], by rw [hnovo]⟩
  · intro hash newId b users h
    rcases Users.create_shape_users hash newId b users with ⟨hne, _⟩ | ⟨novo, hres, hnovo⟩
    · exact absurd h hne
    · exact ⟨novo, by rw [hres], by rw [hnovo], by rw [hnovo]⟩
  · intro id b items h
    rcases Store.update_shape_store id b items with ⟨hne, _⟩ | ⟨old, u, hfind, hres, hu⟩
    · exact absurd h hne
    · exact ⟨old, u, hfind, by rw [hres], by rw [hu]⟩
  · intro id b items h
    rcases Supplier.update_shape_supplier id b items with ⟨hne, _⟩ | ⟨old, u, hfind, hres, hu, _⟩
    · exact absurd h hne
    · exact ⟨old, u, hfind, by rw [hres], by rw [hu]⟩
  · intro id b items h
    rcases Product.update_shape_product id b items with ⟨hne, _⟩ | ⟨old, prq, stq, u, hfind, _, _, hres, hu⟩
    · exact absurd h hne
    · exact ⟨old, u, hfind, by rw [hres], by rw [hu]⟩
  · intro id b items h
    rcases Order.update_shape_order id b items with ⟨hne, _⟩ | ⟨old, amt, dt, u, hfind, _, _, hres, hu⟩
    · exact absurd h hne
    · exact ⟨old, u, hfind, by rw [hres], by rw [hu]⟩
  · intro hash id b users h
    rcases Users.update_shape_users hash id b users with ⟨hne, _⟩ | ⟨old, u, hfind, hres, hu⟩
    · exact absurd h hne
    · exact ⟨old, u, hfind, by rw [hres], by rw [hu], by rw [hu]⟩
  · exact Store.create_status_indep_store
  · exact Store.update_status_indep_store
  · exact Supplier.create_status_indep_supplier
  · exact Supplier.update_status_indep_supplier
  · exact Product.create_status_indep_product
  · exact Product.update_status_indep_product
  · exact Order.create_status_indep_order
  · exact Order.update_status_indep_order
  · exact Users.create_enum_indep
  · exact Users.update_enum_indep

/-- Witness for C5 on concrete enum values, a concrete create and a
concrete update. -/
theorem C5_enum_sanitization_witness :
    Store.sanitizeStatus (some "weird") = "on" ∧
    Order.sanitizeStatus (some "Shipped") = "Shipped" ∧
    (∃ novo, (Store.create "n1" ⟨some "A", some "1", none, none, some "a@b.co", some "zzz"⟩ []).db
        = [] ++ [novo] ∧
      novo.status = Store.sanitizeStatus (some "zzz")) ∧
    (∃ old u,
      [(⟨"s1", "Norte Ltda", "", "norte@x.com", "", "off"⟩ : Supplier.Rec)].find?
          (fun x => x.id == "s1") = some old ∧
      (Supplier.update "s1" ⟨none, none, none, none, none⟩
          [⟨"s1", "Norte Ltda", "", "norte@x.com", "", "off"⟩]).db
        = setFirst (fun x => x.id == "s1") u
            [⟨"s1", "Norte Ltda", "", "norte@x.com", "", "off"⟩] ∧
      u.status = (match (⟨none, none, none, none, none⟩ : Supplier.Body).status with
        | some s => Supplier.sanitizeStatus (some s)
        | none => old.status)) := by
  have h := C5_enum_sanitization
  refine ⟨(h.1.1 "weird").2 (by simp), (h.2.2.2.2.1.1 "Shipped").1 (by simp), ?_, ?_⟩
  · exact h.2.2.2.2.2.2.1 "n1" ⟨some "A", some "1", none, none, some "a@b.co", some "zzz"⟩ [] (by decide)
  · exact h.2.2.2.2.2.2.2.2.2.2.2.2.1 "s1" ⟨none, none, none, none, none⟩
      [⟨"s1", "Norte Ltda", "", "norte@x.com", "", "off"⟩] (by decide)

/-- C6: for every entity, a successful Update (200) replaces exactly the
record at the found index: the response body is the updated record (for
users, its sanitized form), the persisted collection is the input with
position `i` overwritten, every other position is unchanged, the id is
kept, and every field absent from the request body keeps its previous
value. -/
theorem C6_update_partial_overwrite_frame :
    (∀ (id : String) (b : Store.Body) (items : List Store.Rec),
      (Store.update id b items).status = 200 →
      ∃ (i : ℕ) (old u : _),
        items[i]? = some old ∧
        (Store.update id b items).body = some u ∧
        (Store.update id b items).db = items.set i u ∧
        (∀ j, j ≠ i → ((Store.update id b items).db)[j]? = items[j]?) ∧
        u.id = old.id ∧
        (b.store_name = none → u.store_name = old.store_name) ∧
        (b.cnpj = none → u.cnpj = old.cnpj) ∧
        (b.address = none → u.address = old.address) ∧
        (b.phone_number = none → u.phone_number = old.phone_number) ∧
        (b.contact_email = none → u.contact_email = old.contact_email) ∧
        (b.status = none → u.status = old.status)) ∧
    (∀ (id : String) (b : Supplier.Body) (items : List Supplier.Rec),
      (Supplier.update id b items).status = 200 →
      ∃ (i : ℕ) (old u : _),
        items[i]? = some old ∧
        (Supplier.update id b items).body = some u ∧
        (Supplier.update id b items).db = items.set i u ∧
        (∀ j, j ≠ i → ((Supplier.update id b items).db)[j]? = items[j]?) ∧
        u.id = old.id ∧
        (b.supplier_name = none → u.supplier_name = old.supplier_name) ∧
        (b.supplier_category = none → u.supplier_category = old.supplier_category) ∧
        (b.contact_email = none → u.contact_email = old.contact_email) ∧
        (b.phone_number = none → u.phone_number = old.phone_number) ∧
        (b.status = none → u.status = old.status)) ∧
    (∀ (id : String) (b : Product.Body) (items : List Product.Rec),
      (Product.update id b items).status = 200 →
      ∃ (i : ℕ) (old u : _),
        items[i]? = some old ∧
        (Product.update id b items).body = some u ∧
        (Product.update id b items).db = items.set i u ∧
        (∀ j, j ≠ i → ((Product.update id b items).db)[j]? = items[j]?) ∧
        u.id = old.id ∧
        (b.name = none → u.name = old.name) ∧
        (b.description = none → u.description = old.description) ∧
        (b.supplier_id = none → u.supplier_id = old.supplier_id) ∧
        (b.status = none → u.status = old.status) ∧
        (b.price = none → u.price = old.price) ∧
        (b.stock_quantity = none → u.stock_quantity = old.stock_quantity)) ∧
    (∀ (id : String) (b : Order.Body) (items : List Order.Rec),
      (Order.update id b items).status = 200 →
      ∃ (i : ℕ) (old u : _),
        items[i]? = some old ∧
        (Order.update id b items).body = some u ∧
        (Order.update id b items).db = items.set i u ∧
        (∀ j, j ≠ i → ((Order.update id b items).db)[j]? = items[j]?) ∧
        u.id = old.id ∧
        (b.store_id = none → u.store_id = old.store_id) ∧
        (b.item = none → u.item = old.item) ∧
        (b.status = none → u.status = old.status) ∧
        (b.total_amount = none → u.total_amount = old.total_amount) ∧
        (b.date = none → u.date = old.date)) ∧
    (∀ (id : String) (b : Campaign.Body) (items : List Campaign.Rec),
      (Campaign.update id b items).status = 200 →
      ∃ (i : ℕ) (old u : _),
        items[i]? = some old ∧
        (Campaign.update id b items).body = some u ∧
        (Campaign.update id b items).db = items.set i u ∧
        (∀ j, j ≠ i → ((Campaign.update id b items).db)[j]? = items[j]?) ∧
        u.id = old.id ∧
        (b.supplier_id = none → u.supplier_id = old.supplier_id) ∧
        (b.name = none → u.name = old.name) ∧
        (b.start_date = none → u.start_date = old.start_date) ∧
        (b.end_date = none → u.end_date = old.end_date) ∧
        (b.discount_percentage = none → u.discount_percentage = old.discount_percentage)) ∧
    (∀ (hash : String → String) (id : String) (b : Users.Body) (users : List Users.Rec),
      (Users.update hash id b users).status = 200 →
      ∃ (i : ℕ) (old u : _),
        users[i]? = some old ∧
        (Users.update hash id b users).body = some (Users.UserOut.safe (Users.sanitizeUser u)) ∧
        (Users.update hash id b users).db = users.set i u ∧
        (∀ j, j ≠ i → ((Users.update hash id b users).db)[j]? = users[j]?) ∧
        u.id = old.id ∧
        (b.name = none → u.name = old.name) ∧
        (b.contact_email = none → u.contact_email = old.contact_email) ∧
        (b.user = none → u.user = old.user) ∧
        (b.level = none → u.level = old.level) ∧
        (b.status = none → u.status = old.status) ∧
        (b.pwd = none → u.pwd = old.pwd)) := by
  refine ⟨?_, ?_, ?_, ?_, ?_, ?_⟩
  · intro id b items h
    rcases Store.update_shape_store id b items with ⟨hne, _⟩ | ⟨old, u, hfind, hres, hu⟩
    · exact absurd h hne
    · obtain ⟨i, hget, hsf⟩ := find?_decomp hfind u
      refine ⟨i, old, u, hget, by rw [hres], by rw [hres]; exact hsf, ?_, by rw [hu],
        by intro hnone; rw [hu, hnone]; rfl,
        by intro hnone; rw [hu, hnone]; rfl,
        by intro hnone; rw [hu, hnone]; rfl,
        by intro hnone; rw [hu, hnone],
        by intro hnone; rw [hu, hnone]; rfl,
        by intro hnone; rw [hu, hnone]⟩
      intro j hj
      rw [hres, hsf]
      exact List.getElem?_set_ne (Ne.symm hj)
  · intro id b items h
    rcases Supplier.update_shape_supplier id b items with ⟨hne, _⟩ | ⟨old, u, hfind, hres, hu, _⟩
    · exact absurd h hne
    · obtain ⟨i, hget, hsf⟩ := find?_decomp hfind u
      refine ⟨i, old, u, hget, by rw [hres], by rw [hres]; exact hsf, ?_, by rw [hu],
        by intro hnone; rw [hu, hnone]; rfl,
        by intro hnone; rw [hu, hnone]; rfl,
        by intro hnone; rw [hu, hnone]; rfl,
        by intro hnone; rw [hu, hnone],
        by intro hnone; rw [hu, hnone]⟩
      intro j hj
      rw [hres, hsf]
      exact List.getElem?_set_ne (Ne.symm hj)
  · intro id b items h
    rcases Product.update_shape_product id b items with ⟨hne, _⟩ | ⟨old, prq, stq, u, hfind, hpr, hst, hres, hu⟩
    · exact absurd h hne
    · obtain ⟨i, hget, hsf⟩ := find?_decomp hfind u
      refine ⟨i, old, u, hget, by rw [hres], by rw [hres]; exact hsf, ?_, by rw [hu],
        by intro hnone; rw [hu, hnone]; rfl,
        by intro hnone; rw [hu, hnone]; rfl,
        by intro hnone; rw [hu, hnone]; rfl,
        by intro hnone; rw [hu, hnone],
        by intro hnone; rw [hu]; rw [hnone] at hpr; exact hpr,
        by intro hnone; rw [hu]; rw [hnone] at hst; exact hst⟩
      intro j hj
      rw [hres, hsf]
      exact List.getElem?_set_ne (Ne.symm hj)
  · intro id b items h
    rcases Order.update_shape_order id b items with ⟨hne, _⟩ | ⟨old, amt, dt, u, hfind, hamt, hdt, hres, hu⟩
    · exact absurd h hne
    · obtain ⟨i, hget, hsf⟩ := find?_decomp hfind u
      refine ⟨i, old, u, hget, by rw [hres], by rw [hres]; exact hsf, ?_, by rw [hu],
        by intro hnone; rw [hu, hnone]; rfl,
        by intro hnone; rw [hu, hnone]; rfl,
        by intro hnone; rw [hu, hnone],
        by intro hnone; rw [hu]; rw [hnone] at hamt; exact hamt,
        by intro hnone; rw [hu]; rw [hnone] at hdt; exact hdt⟩
      intro j hj
      rw [hres, hsf]
      exact List.getElem?_set_ne (Ne.symm hj)
  · intro id b items h
    rcases Campaign.update_shape_campaign id b items with ⟨hne, _⟩ | ⟨old, pct, sd, ed, u, hfind, hpct, hres, hu⟩
    · exact absurd h hne
    · obtain ⟨i, hget, hsf⟩ := find?_decomp hfind u
      refine ⟨i, old, u, hget, by rw [hres], by rw [hres]; exact hsf, ?_, by rw [hu],
        by intro hnone; rw [hu, hnone]; rfl,
        by intro hnone; rw [hu, hnone]; rfl,
        by intro hnone; rw [hu, hnone],
        by intro hnone; rw [hu, hnone],
        by intro hnone; rw [hu]; rw [hnone] at hpct; exact hpct⟩
      intro j hj
      rw [hres, hsf]
      exact List.getElem?_set_ne (Ne.symm hj)
  · intro hash id b users h
    rcases Users.update_shape_users hash id b users with ⟨hne, _⟩ | ⟨old, u, hfind, hres, hu⟩
    · exact absurd h hne
    · obtain ⟨i, hget, hsf⟩ := find?_decomp hfind u
      refine ⟨i, old, u, hget, by rw [hres], by rw [hres]; exact hsf, ?_, by rw [hu],
        by intro hnone; rw [hu, hnone]; rfl,
        by intro hnone; rw [hu, hnone]; rfl,
        by intro hnone; rw [hu, hnone]; rfl,
        by intro hnone; rw [hu, hnone],
        by intro hnone; rw [hu, hnone],
        by intro hnone; rw [hu, hnone]⟩
      intro j hj
      rw [hres, hsf]
      exact List.getElem?_set_ne (Ne.symm hj)

/-- Witness for C6: a concrete partial update of one store record. -/
theorem C6_update_partial_overwrite_frame_witness :
    ∃ (i : ℕ) (old u : Store.Rec),
      [(⟨"s1", "Old", "123", "addr", "555", "e@x.co", "off"⟩ : Store.Rec)][i]? = some old ∧
      (Store.update "s1" ⟨some "NewName", none, none, none, none, none⟩
        [⟨"s1", "Old", "123", "addr", "555", "e@x.co", "off"⟩]).body = some u ∧
      (Store.update "s1" ⟨some "NewName", none, none, none, none, none⟩
        [⟨"s1", "Old", "123", "addr", "555", "e@x.co", "off"⟩]).db
        = [(⟨"s1", "Old", "123", "addr", "555", "e@x.co", "off"⟩ : Store.Rec)].set i u ∧
      (∀ j, j ≠ i →
        ((Store.update "s1" ⟨some "NewName", none, none, none, none, none⟩
          [⟨"s1", "Old", "123", "addr", "555", "e@x.co", "off"⟩]).db)[j]?
          = [(⟨"s1", "Old", "123", "addr", "555", "e@x.co", "off"⟩ : Store.Rec)][j]?) ∧
      u.id = old.id ∧
      ((some "NewName" : Option String) = none → u.store_name = old.store_name) ∧
      ((none : Option String) = none → u.cnpj = old.cnpj) ∧
      ((none : Option String) = none → u.address = old.address) ∧
      ((none : Option String) = none → u.phone_number = old.phone_number) ∧
      ((none : Option String) = none → u.contact_email = old.contact_email) ∧
      ((none : Option String) = none → u.status = old.status) :=
  C6_update_partial_overwrite_frame.1 "s1" ⟨some "NewName", none, none, none, none, none⟩
    [⟨"s1", "Old", "123", "addr", "555", "e@x.co", "off"⟩] (by decide)

/-- C8: for every entity, a Create request with all required,
well-formed fields that violates no uniqueness/overlap constraint, given
a generated identifier not present in the collection (modelling
`randomUUID` freshness), returns 201 with a record carrying that fresh
identifier, and the new collection is the old one with exactly that
record appended. -/
theorem C8_valid_create_appends_fresh_record :
    (∀ (newId : String) (b : Store.Body) (items : List Store.Rec) (sn c em : String),
      b.store_name = some sn → sn ≠ "" →
      b.cnpj = some c → c ≠ "" →
      b.contact_email = some em → em ≠ "" → isEmail em = true →
      (∀ x ∈ items, x.cnpj ≠ c) →
      newId ∉ items.map Store.Rec.id →
      ∃ novo, Store.create newId b items = ⟨201, some novo, items ++ [novo]⟩ ∧
        novo.id = newId ∧ novo.id ∉ items.map Store.Rec.id) ∧
    (∀ (newId : String) (b : Supplier.Body) (items : List Supplier.Rec) (sn em : String),
      b.supplier_name = some sn → sn ≠ "" →
      b.contact_email = some em → em ≠ "" → isEmail em = true →
      (∀ x ∈ items, ¬(toLowerJS x.supplier_name = toLowerJS sn ∧
        toLowerJS x.contact_email = toLowerJS em)) →
      newId ∉ items.map Supplier.Rec.id →
      ∃ novo, Supplier.create newId b items = ⟨201, some novo, items ++ [novo]⟩ ∧
        novo.id = newId ∧ novo.id ∉ items.map Supplier.Rec.id) ∧
    (∀ (newId : String) (b : Product.Body) (items : List Product.Rec)
        (nm sid : String) (pv sv : NumIn) (p : ℚ) (st : ℤ),
      b.name = some nm → nm ≠ "" →
      b.supplier_id = some sid → sid ≠ "" →
      b.price = some pv → Product.toPrice pv = some p →
      b.stock_quantity = some sv → Product.toInt sv = some st →
      (∀ x ∈ items, ¬(toLowerJS x.name = toLowerJS nm ∧ x.supplier_id = sid)) →
      newId ∉ items.map Product.Rec.id →
      ∃ novo, Product.create newId b items = ⟨201, some novo, items ++ [novo]⟩ ∧
        novo.id = newId ∧ novo.id ∉ items.map Product.Rec.id) ∧
    (∀ (newId : String) (now : ℤ) (b : Order.Body) (items : List Order.Rec)
        (sid it : String) (tv : NumIn) (t : ℚ) (d : ℤ),
      b.store_id = some sid → sid ≠ "" →
      b.item = some it → it ≠ "" →
      b.total_amount = some tv → truthyNum tv = true →
      Order.toAmount tv = some t →
      (if truthyD b.date then parseDate (b.date.getD ⟨"", none⟩) else some now) = some d →
      newId ∉ items.map Order.Rec.id →
      ∃ novo, Order.create newId now b items = ⟨201, some novo, items ++ [novo]⟩ ∧
        novo.id = newId ∧ novo.id ∉ items.map Order.Rec.id) ∧
    (∀ (newId : String) (b : Campaign.Body) (items : List Campaign.Rec)
        (sid nm rs re : String) (sd ed : ℤ) (dv : NumIn) (pct : ℚ),
      b.supplier_id = some sid → sid ≠ "" →
      b.name = some nm → nm ≠ "" →
      b.start_date = some ⟨rs, some sd⟩ → rs ≠ "" →
      b.end_date = some ⟨re, some ed⟩ → re ≠ "" →
      b.discount_percentage = some dv → Campaign.validPercent dv = some pct →
      sd ≤ ed →
      (∀ x ∈ items, ¬(x.supplier_id = sid ∧ toLowerJS x.name = toLowerJS nm ∧
        (parseDate x.start_date).getD 0 ≤ ed ∧ sd ≤ (parseDate x.end_date).getD 0)) →
      newId ∉ items.map Campaign.Rec.id →
      ∃ novo, Campaign.create newId b items = ⟨201, some novo, items ++ [novo]⟩ ∧
        novo.id = newId ∧ novo.id ∉ items.map Campaign.Rec.id) ∧
    (∀ (hash : String → String) (newId : String) (b : Users.Body) (users : List Users.Rec)
        (nm em us pw : String),
      b.name = some nm → nm ≠ "" →
      b.contact_email = some em → em ≠ "" → isEmail em = true →
      b.user = some us → us ≠ "" →
      b.pwd = some pw → pw ≠ "" →
      (∀ x ∈ users, x.user ≠ us) →
      (∀ x ∈ users, x.contact_email ≠ em) →
      newId ∉ users.map Users.Rec.id →
      ∃ novo, Users.create hash newId b users
          = ⟨201, some (.safe (Users.sanitizeUser novo)), users ++ [novo]⟩ ∧
        novo.id = newId ∧ novo.id ∉ users.map Users.Rec.id) := by
  refine ⟨?_, ?_, ?_, ?_, ?_, ?_⟩
  · intro newId b items sn c em hsn hsn' hc hc' hem hem' hemail hdup hfresh
    have hn1 : ¬((!truthyS b.store_name || !truthyS b.cnpj || !truthyS b.contact_email) = true) := by
      rw [hsn, hc, hem]
      simp [truthyS, hsn', hc', hem']
    have hn2 : ¬((!isEmail (b.contact_email.getD "")) = true) := by
      rw [hem]
      simp [hemail]
    have hn3 : ¬((items.any fun x => x.cnpj == b.cnpj.getD "") = true) := by
      rw [hc, List.any_eq_true]
      rintro ⟨x, hx, hbeq⟩
      exact hdup x hx (by simpa using hbeq)
    unfold Store.create
    rw [if_neg hn1, if_neg hn2, if_neg hn3]
    exact ⟨_, rfl, rfl, hfresh⟩
  · intro newId b items sn em hsn hsn' hem hem' hemail hdup hfresh
    have hn1 : ¬((!truthyS b.supplier_name || !truthyS b.contact_email) = true) := by
      rw [hsn, hem]
      simp [truthyS, hsn', hem']
    have hn2 : ¬((!isEmail (b.contact_email.getD "")) = true) := by
      rw [hem]
      simp [hemail]
    have hn3 : ¬((items.any fun x =>
        toLowerJS x.supplier_name == toLowerJS (b.supplier_name.getD "") &&
        toLowerJS x.contact_email == toLowerJS (b.contact_email.getD "")) = true) := by
      rw [hsn, hem, List.any_eq_true]
      rintro ⟨x, hx, hbeq⟩
      simp only [Option.getD_some, Bool.and_eq_true, beq_iff_eq] at hbeq
      exact hdup x hx hbeq
    unfold Supplier.create
    rw [if_neg hn1, if_neg hn2, if_neg hn3]
    exact ⟨_, rfl, rfl, hfresh⟩
  · intro newId b items nm sid pv sv p st hnm hnm' hsid hsid' hpv hp hsv hst hdup hfresh
    have hn1 : ¬((!truthyS b.name || b.price.isNone || b.stock_quantity.isNone ||
        !truthyS b.supplier_id) = true) := by
      rw [hnm, hsid, hpv, hsv]
      simp [truthyS, hnm', hsid']
    have hs1 : Product.toPrice (b.price.getD (NumIn.jnum 0)) = some p := by
      rw [hpv]; exact hp
    have hs2 : Product.toInt (b.stock_quantity.getD (NumIn.jnum 0)) = some st := by
      rw [hsv]; exact hst
    have hn3 : ¬((items.any fun x =>
        toLowerJS x.name == toLowerJS (b.name.getD "") &&
        x.supplier_id == b.supplier_id.getD "") = true) := by
      rw [hnm, hsid, List.any_eq_true]
      rintro ⟨x, hx, hbeq⟩
      simp only [Option.getD_some, Bool.and_eq_true, beq_iff_eq] at hbeq
      exact hdup x hx hbeq
    unfold Product.create
    rw [if_neg hn1, hs1, hs2]
    dsimp only
    rw [if_neg hn3]
    exact ⟨_, rfl, rfl, hfresh⟩
  · intro newId now b items sid it tv t d hsid hsid' hit hit' htv htv' ht hd hfresh
    have hn1 : ¬((!truthyS b.store_id || !truthyS b.item || !truthyN b.total_amount) = true) := by
      rw [hsid, hit, htv]
      simp [truthyS, truthyN, hsid', hit', htv']
    have hs1 : Order.toAmount (b.total_amount.getD (NumIn.jnum 0)) = some t := by
      rw [htv]; exact ht
    unfold Order.create
    rw [if_neg hn1, hs1, hd]
    exact ⟨_, rfl, rfl, hfresh⟩
  · intro newId b items sid nm rs re sd ed dv pct hsid hsid' hnm hnm' hst hrs hen hre hdv hpct hle hover hfresh
    have hn1 : ¬((!truthyS b.supplier_id || !truthyS b.name || !truthyD b.start_date ||
        !truthyD b.end_date || b.discount_percentage.isNone) = true) := by
      rw [hsid, hnm, hst, hen, hdv]
      simp [truthyS, truthyD, hsid', hnm', hrs, hre]
    have hps : parseDate (b.start_date.getD ⟨"", none⟩) = some sd := by rw [hst]; rfl
    have hpe : parseDate (b.end_date.getD ⟨"", none⟩) = some ed := by rw [hen]; rfl
    have hn2 : ¬(ed < sd) := not_lt.2 hle
    have hs3 : Campaign.validPercent (b.discount_percentage.getD (NumIn.jnum 0)) = some pct := by
      rw [hdv]; exact hpct
    have hn4 : ¬((items.any fun x =>
        x.supplier_id == b.supplier_id.getD "" &&
        toLowerJS x.name == toLowerJS (b.name.getD "") &&
        jsLe (parseDate x.start_date) (some ed) &&
        jsLe (some sd) (parseDate x.end_date)) = true) := by
      rw [hsid, hnm, List.any_eq_true]
      rintro ⟨x, hx, hbeq⟩
      simp only [Option.getD_some, Bool.and_eq_true, beq_iff_eq, jsLe,
        decide_eq_true_eq] at hbeq
      exact hover x hx ⟨hbeq.1.1.1, hbeq.1.1.2, hbeq.1.2, hbeq.2⟩
    unfold Campaign.create
    rw [if_neg hn1, hps, hpe]
    dsimp only
    rw [if_neg hn2, hs3]
    dsimp only
    rw [if_neg hn4]
    exact ⟨_, rfl, rfl, hfresh⟩
  · intro hash newId b users nm em us pw hnm hnm' hem hem' hemail hus hus' hpw hpw' hdup1 hdup2 hfresh
    have hn1 : ¬((!truthyS b.name || !truthyS b.contact_email || !truthyS b.user ||
        !truthyS b.pwd) = true) := by
      rw [hnm, hem, hus, hpw]
      simp [truthyS, hnm', hem', hus', hpw']
    have hn2 : ¬((!isEmail (b.contact_email.getD "")) = true) := by
      rw [hem]; simp [hemail]
    have hn3 : ¬((users.any fun u => u.user == b.user.getD "") = true) := by
      rw [hus, List.any_eq_true]
      rintro ⟨x, hx, hbeq⟩
      exact hdup1 x hx (by simpa using hbeq)
    have hn4 : ¬((users.any fun u => u.contact_email == b.contact_email.getD "") = true) := by
      rw [hem, List.any_eq_true]
      rintro ⟨x, hx, hbeq⟩
      exact hdup2 x hx (by simpa using hbeq)
    unfold Users.create
    rw [if_neg hn1, if_neg hn2, if_neg hn3, if_neg hn4]
    exact ⟨_, rfl, rfl, hfresh⟩

/-- Witness for C8: concrete valid creates for all six entities. -/
theorem C8_valid_create_appends_fresh_record_witness :
    (∃ novo, Store.create "sA" ⟨some "Loja", some "999", none, none, some "l@x.br", none⟩
        [⟨"s0", "Outra", "111", "", "", "o@x.br", "on"⟩]
        = ⟨201, some novo, [⟨"s0", "Outra", "111", "", "", "o@x.br", "on"⟩] ++ [novo]⟩ ∧
      novo.id = "sA" ∧
      novo.id ∉ [(⟨"s0", "Outra", "111", "", "", "o@x.br", "on"⟩ : Store.Rec)].map Store.Rec.id) ∧
    (∃ novo, Supplier.create "pA" ⟨some "Acme", none, some "a@x.br", none, none⟩ []
        = ⟨201, some novo, [] ++ [novo]⟩ ∧
      novo.id = "pA" ∧ novo.id ∉ ([] : List Supplier.Rec).map Supplier.Rec.id) ∧
    (∃ novo, Product.create "prA"
        ⟨some "Mouse", none, some (.jstr "19.999" (some (mkRat 19999 1000)) (some 19)),
          some (.jnum 8), some "sup1", none⟩ []
        = ⟨201, some novo, [] ++ [novo]⟩ ∧
      novo.id = "prA" ∧ novo.id ∉ ([] : List Product.Rec).map Product.Rec.id) ∧
    (∃ novo, Order.create "oA" 5
        ⟨some "st1", some "widgets", some (.jstr "123.00" (some 123) (some 123)), none, none⟩ []
        = ⟨201, some novo, [] ++ [novo]⟩ ∧
      novo.id = "oA" ∧ novo.id ∉ ([] : List Order.Rec).map Order.Rec.id) ∧
    (∃ novo, Campaign.create "cA"
        ⟨some "sup", some "BF", some ⟨"d1", some 10⟩, some ⟨"d2", some 20⟩, some (.jnum 15)⟩
        [⟨"c0", "sup", "bf", ⟨"x", some 30⟩, ⟨"y", some 40⟩, 10⟩]
        = ⟨201, some novo, [⟨"c0", "sup", "bf", ⟨"x", some 30⟩, ⟨"y", some 40⟩, 10⟩] ++ [novo]⟩ ∧
      novo.id = "cA" ∧
      novo.id ∉ [(⟨"c0", "sup", "bf", ⟨"x", some 30⟩, ⟨"y", some 40⟩, 10⟩ : Campaign.Rec)].map
        Campaign.Rec.id) ∧
    (∃ novo, Users.create (fun s => String.append "h" s) "uA"
        ⟨some "Bob", some "b@x.de", some "bob", some "pw", none, none⟩ []
        = ⟨201, some (.safe (Users.sanitizeUser novo)), [] ++ [novo]⟩ ∧
      novo.id = "uA" ∧ novo.id ∉ ([] : List Users.Rec).map Users.Rec.id) := by
  have h := C8_valid_create_appends_fresh_record
  refine ⟨?_, ?_, ?_, ?_, ?_, ?_⟩
  · exact h.1 "sA" _ _ "Loja" "999" "l@x.br" rfl (by decide) rfl (by decide) rfl
      (by decide) (by decide) (by decide) (by decide)
  · exact h.2.1 "pA" _ _ "Acme" "a@x.br" rfl (by decide) rfl (by decide) (by decide)
      (by simp) (by simp)
  · exact h.2.2.1 "prA" _ _ "Mouse" "sup1" _ _ 20 8 rfl (by decide) rfl (by decide) rfl
      (by decide) rfl (by decide) (by simp) (by simp)
  · exact h.2.2.2.1 "oA" 5 _ _ "st1" "widgets" _ 123 5 rfl (by decide) rfl (by decide) rfl
      (by decide) (by decide) (by decide) (by simp)
  · exact h.2.2.2.2.1 "cA" _ _ "sup" "BF" "d1" "d2" 10 20 _ 15 rfl (by decide) rfl
      (by decide) rfl (by decide) rfl (by decide) rfl (by decide) (by decide) (by decide)
      (by decide)
  · exact h.2.2.2.2.2 _ "uA" _ _ "Bob" "b@x.de" "bob" "pw" rfl (by decide) rfl (by decide)
      (by decide) rfl (by decide) rfl (by decide) (by simp) (by simp) (by simp)

/-- C4 counterexample: the claim says a monetary input that parses to a
finite non-negative number is stored rounded, but an order Create whose
`total_amount` is the number `0` (which parses to `0 ≥ 0`) is rejected
400 by the truthiness required-field check and nothing is stored. -/
theorem C4_counterexample :
    parseFloatJS (NumIn.jnum 0) = some 0 ∧ ¬((0 : ℚ) < 0) ∧
    (Order.create "oc4" 11 ⟨some "stX", some "one item", some (.jnum 0), none, none⟩
      [⟨"o0", "stX", "it", 3, "Pending", ⟨"d", some 1⟩⟩]).status = 400 ∧
    (Order.create "oc4" 11 ⟨some "stX", some "one item", some (.jnum 0), none, none⟩
      [⟨"o0", "stX", "it", 3, "Pending", ⟨"d", some 1⟩⟩]).db
      = [⟨"o0", "stX", "it", 3, "Pending", ⟨"d", some 1⟩⟩] := by
  decide

/-- C4 (amended): monetary and percentage inputs on Create/Update
(product price, order total_amount, campaign discount_percentage) that
parse to a non-finite or negative number (for the percentage, also above
100) are rejected with 400 and nothing is written (on Update, once the
target id was found); when the request succeeds, the stored value is the
parsed number rounded to 2 decimal places.  Exception (see the
counterexample and C10): an order Create rejects the number 0 through the
required-field truthiness check before ever parsing it. -/
theorem C4_money_validation_and_rounding :
    (∀ v : NumIn,
      (parseFloatJS v = none → Product.toPrice v = none) ∧
      (∀ q : ℚ, parseFloatJS v = some q → q < 0 → Product.toPrice v = none) ∧
      (∀ q : ℚ, parseFloatJS v = some q → 0 ≤ q → Product.toPrice v = some (round2 q))) ∧
    (∀ v : NumIn,
      (parseFloatJS v = none → Order.toAmount v = none) ∧
      (∀ q : ℚ, parseFloatJS v = some q → q < 0 → Order.toAmount v = none) ∧
      (∀ q : ℚ, parseFloatJS v = some q → 0 ≤ q → Order.toAmount v = some (round2 q))) ∧
    (∀ v : NumIn,
      (parseFloatJS v = none → Campaign.validPercent v = none) ∧
      (∀ q : ℚ, parseFloatJS v = some q → q < 0 → Campaign.validPercent v = none) ∧
      (∀ q : ℚ, parseFloatJS v = some q → 100 < q → Campaign.validPercent v = none) ∧
      (∀ q : ℚ, parseFloatJS v = some q → 0 ≤ q → q ≤ 100 →
        Campaign.validPercent v = some (round2 q))) ∧
    (∀ (newId : String) (b : Product.Body) (items : List Product.Rec) (pv : NumIn),
      b.price = some pv → Product.toPrice pv = none →
      Product.create newId b items = ⟨400, none, items⟩) ∧
    (∀ (id : String) (b : Product.Body) (items : List Product.Rec)
        (old : Product.Rec) (pv : NumIn),
      items.find? (fun x => x.id == id) = some old →
      b.price = some pv → Product.toPrice pv = none →
      Product.update id b items = ⟨400, none, items⟩) ∧
    (∀ (newId : String) (now : ℤ) (b : Order.Body) (items : List Order.Rec) (tv : NumIn),
      b.total_amount = some tv → Order.toAmount tv = none →
      Order.create newId now b items = ⟨400, none, items⟩) ∧
    (∀ (id : String) (b : Order.Body) (items : List Order.Rec)
        (old : Order.Rec) (tv : NumIn),
      items.find? (fun x => x.id == id) = some old →
      b.total_amount = some tv → Order.toAmount tv = none →
      Order.update id b items = ⟨400, none, items⟩) ∧
    (∀ (newId : String) (b : Campaign.Body) (items : List Campaign.Rec) (dv : NumIn),
      b.discount_percentage = some dv → Campaign.validPercent dv = none →
      Campaign.create newId b items = ⟨400, none, items⟩) ∧
    (∀ (id : String) (b : Campaign.Body) (items : List Campaign.Rec)
        (old : Campaign.Rec) (dv : NumIn),
      items.find? (fun x => x.id == id) = some old →
      b.discount_percentage = some dv → Campaign.validPercent dv = none →
      Campaign.update id b items = ⟨400, none, items⟩) ∧
    (∀ (newId : String) (b : Product.Body) (items : List Product.Rec) (pv : NumIn) (q : ℚ),
      b.price = some pv → parseFloatJS pv = some q → 0 ≤ q →
      (Product.create newId b items).status = 201 →
      ∃ novo, (Product.create newId b items).db = items ++ [novo] ∧
        novo.price = round2 q) ∧
    (∀ (id : String) (b : Product.Body) (items : List Product.Rec) (pv : NumIn) (q : ℚ),
      b.price = some pv → parseFloatJS pv = some q → 0 ≤ q →
      (Product.update id b items).status = 200 →
      ∃ u, (Product.update id b items).body = some u ∧ u.price = round2 q) ∧
    (∀ (newId : String) (now : ℤ) (b : Order.Body) (items : List Order.Rec)
        (tv : NumIn) (q : ℚ),
      b.total_amount = some tv → parseFloatJS tv = some q → 0 ≤ q →
      (Order.create newId now b items).status = 201 →
      ∃ novo, (Order.create newId now b items).db = items ++ [novo] ∧
        novo.total_amount = round2 q) ∧
    (∀ (id : String) (b : Order.Body) (items : List Order.Rec) (tv : NumIn) (q : ℚ),
      b.total_amount = some tv → parseFloatJS tv = some q → 0 ≤ q →
      (Order.update id b items).status = 200 →
      ∃ u, (Order.update id b items).body = some u ∧ u.total_amount = round2 q) ∧
    (∀ (newId : String) (b : Campaign.Body) (items : List Campaign.Rec)
        (dv : NumIn) (q : ℚ),
      b.discount_percentage = some dv → parseFloatJS dv = some q → 0 ≤ q → q ≤ 100 →
      (Campaign.create newId b items).status = 201 →
      ∃ novo, (Campaign.create newId b items).db = items ++ [novo] ∧
        novo.discount_percentage = round2 q) ∧
    (∀ (id : String) (b : Campaign.Body) (items : List Campaign.Rec)
        (dv : NumIn) (q : ℚ),
      b.discount_percentage = some dv → parseFloatJS dv = some q → 0 ≤ q → q ≤ 100 →
      (Campaign.update id b items).status = 200 →
      ∃ u, (Campaign.update id b items).body = some u ∧
        u.discount_percentage = round2 q) := by
  refine ⟨?_, ?_, ?_, ?_, ?_, ?_, ?_, ?_, ?_, ?_, ?_, ?_, ?_, ?_, ?_⟩
  · intro v
    refine ⟨?_, ?_, ?_⟩
    · intro h
      unfold Product.toPrice
      rw [h]
    · intro q hq hlt
      unfold Product.toPrice
      rw [hq]
      dsimp only
      rw [if_pos hlt]
    · intro q hq hq0
      unfold Product.toPrice
      rw [hq]
      dsimp only
      rw [if_neg (not_lt.2 hq0)]
  · intro v
    refine ⟨?_, ?_, ?_⟩
    · intro h
      unfold Order.toAmount
      rw [h]
    · intro q hq hlt
      unfold Order.toAmount
      rw [hq]
      dsimp only
      rw [if_pos hlt]
    · intro q hq hq0
      unfold Order.toAmount
      rw [hq]
      dsimp only
      rw [if_neg (not_lt.2 hq0)]
  · intro v
    refine ⟨?_, ?_, ?_, ?_⟩
    · intro h
      unfold Campaign.validPercent
      rw [h]
    · intro q hq hlt
      unfold Campaign.validPercent
      rw [hq]
      dsimp only
      rw [if_neg (by simp [not_le.2 hlt])]
    · intro q hq hgt
      unfold Campaign.validPercent
      rw [hq]
      dsimp only
      rw [if_neg (by simp [not_le.2 hgt])]
    · intro q hq hq0 hq100
      unfold Campaign.validPercent
      rw [hq]
      dsimp only
      rw [if_pos (by simp [hq0, hq100])]
  · intro newId b items pv hpv hbad
    unfold Product.create
    by_cases h1 : (!truthyS b.name || b.price.isNone || b.stock_quantity.isNone ||
        !truthyS b.supplier_id) = true
    · rw [if_pos h1]
    · rw [if_neg h1]
      have : Product.toPrice (b.price.getD (NumIn.jnum 0)) = none := by
        rw [hpv]; exact hbad
      rw [this]
  · intro id b items old pv hfind hpv hbad
    unfold Product.update
    rw [hfind]
    dsimp only
    rw [hpv]
    dsimp only
    rw [hbad]
  · intro newId now b items tv htv hbad
    unfold Order.create
    by_cases h1 : (!truthyS b.store_id || !truthyS b.item || !truthyN b.total_amount) = true
    · rw [if_pos h1]
    · rw [if_neg h1]
      have : Order.toAmount (b.total_amount.getD (NumIn.jnum 0)) = none := by
        rw [htv]; exact hbad
      rw [this]
  · intro id b items old tv hfind htv hbad
    unfold Order.update
    rw [hfind]
    dsimp only
    rw [htv]
    dsimp only
    rw [hbad]
  · intro newId b items dv hdv hbad
    unfold Campaign.create
    by_cases h1 : (!truthyS b.supplier_id || !truthyS b.name || !truthyD b.start_date ||
        !truthyD b.end_date || b.discount_percentage.isNone) = true
    · rw [if_pos h1]
    · rw [if_neg h1]
      split
      · rename_i sd ed hsd hed
        by_cases h2 : ed < sd
        · rw [if_pos h2]
        · rw [if_neg h2]
          have : Campaign.validPercent (b.discount_percentage.getD (NumIn.jnum 0)) = none := by
            rw [hdv]; exact hbad
          rw [this]
      · rfl
  · intro id b items old dv hfind hdv hbad
    unfold Campaign.update
    rw [hfind]
    dsimp only
    rw [hdv]
    dsimp only
    rw [hbad]
  · intro newId b items pv q hpv hq hq0 h
    rcases Product.create_shape_product newId b items with ⟨hne, _⟩ | ⟨p, s, novo, hp, hs, hres, hnovo⟩
    · exact absurd h hne
    · refine ⟨novo, by rw [hres], ?_⟩
      have h1 : Product.toPrice pv = some p := by
        rw [hpv] at hp
        exact hp
      have h2 : Product.toPrice pv = some (round2 q) := by
        unfold Product.toPrice
        rw [hq]
        dsimp only
        rw [if_neg (not_lt.2 hq0)]
      have h3 : p = round2 q := by
        rw [h1] at h2
        exact Option.some.inj h2
      rw [hnovo]
      exact h3
  · intro id b items pv q hpv hq hq0 h
    rcases Product.update_shape_product id b items with ⟨hne, _⟩ | ⟨old, prq, stq, u, hfind, hpr, hst, hres, hu⟩
    · exact absurd h hne
    · refine ⟨u, by rw [hres], ?_⟩
      have h1 : Product.toPrice pv = some prq := by
        rw [hpv] at hpr
        exact hpr
      have h2 : Product.toPrice pv = some (round2 q) := by
        unfold Product.toPrice
        rw [hq]
        dsimp only
        rw [if_neg (not_lt.2 hq0)]
      have h3 : prq = round2 q := by
        rw [h1] at h2
        exact Option.some.inj h2
      rw [hu]
      exact h3
  · intro newId now b items tv q htv hq hq0 h
    rcases Order.create_shape_order newId now b items with ⟨hne, _⟩ | ⟨t, d, novo, ht, hd, hres, hnovo⟩
    · exact absurd h hne
    · refine ⟨novo, by rw [hres], ?_⟩
      have h1 : Order.toAmount tv = some t := by
        rw [htv] at ht
        exact ht
      have h2 : Order.toAmount tv = some (round2 q) := by
        unfold Order.toAmount
        rw [hq]
        dsimp only
        rw [if_neg (not_lt.2 hq0)]
      have h3 : t = round2 q := by
        rw [h1] at h2
        exact Option.some.inj h2
      rw [hnovo]
      exact h3
  · intro id b items tv q htv hq hq0 h
    rcases Order.update_shape_order id b items with ⟨hne, _⟩ | ⟨old, amt, dt, u, hfind, hamt, hdt, hres, hu⟩
    · exact absurd h hne
    · refine ⟨u, by rw [hres], ?_⟩
      have h1 : Order.toAmount tv = some amt := by
        rw [htv] at hamt
        exact hamt
      have h2 : Order.toAmount tv = some (round2 q) := by
        unfold Order.toAmount
        rw [hq]
        dsimp only
        rw [if_neg (not_lt.2 hq0)]
      have h3 : amt = round2 q := by
        rw [h1] at h2
        exact Option.some.inj h2
      rw [hu]
      exact h3
  · intro newId b items dv q hdv hq hq0 hq100 h
    rcases Campaign.create_shape_campaign newId b items with ⟨hne, _⟩ | ⟨sd, ed, pct, novo, hsd, hed, hpct, hres, hnovo⟩
    · exact absurd h hne
    · refine ⟨novo, by rw [hres], ?_⟩
      have h1 : Campaign.validPercent dv = some pct := by
        rw [hdv] at hpct
        exact hpct
      have h2 : Campaign.validPercent dv = some (round2 q) := by
        unfold Campaign.validPercent
        rw [hq]
        dsimp only
        rw [if_pos (by simp [hq0, hq100])]
      have h3 : pct = round2 q := by
        rw [h1] at h2
        exact Option.some.inj h2
      rw [hnovo]
      exact h3
  · intro id b items dv q hdv hq hq0 hq100 h
    rcases Campaign.update_shape_campaign id b items with ⟨hne, _⟩ | ⟨old, pct, sd, ed, u, hfind, hpct, hres, hu⟩
    · exact absurd h hne
    · refine ⟨u, by rw [hres], ?_⟩
      have h1 : Campaign.validPercent dv = some pct := by
        rw [hdv] at hpct
        exact hpct
      have h2 : Campaign.validPercent dv = some (round2 q) := by
        unfold Campaign.validPercent
        rw [hq]
        dsimp only
        rw [if_pos (by simp [hq0, hq100])]
      have h3 : pct = round2 q := by
        rw [h1] at h2
        exact Option.some.inj h2
      rw [hu]
      exact h3

/-- Witness for C4 at the spec's own examples: price "-5" is rejected
400, and price "19.999" is stored as 20 (two decimal places). -/
theorem C4_money_validation_and_rounding_witness :
    Product.create "pc4" ⟨some "Kit", none, some (.jstr "-5" (some (-5)) (some (-5))),
      some (.jnum 8), some "supX", none⟩ [] = ⟨400, none, []⟩ ∧
    (∃ novo, (Product.create "pc5" ⟨some "Kit", none,
        some (.jstr "19.999" (some (mkRat 19999 1000)) (some 19)),
        some (.jnum 8), some "supX", none⟩ []).db = [] ++ [novo] ∧
      novo.price = round2 (mkRat 19999 1000)) ∧
    round2 (mkRat 19999 1000) = 20 := by
  have h := C4_money_validation_and_rounding
  refine ⟨?_, ?_, by decide⟩
  · exact h.2.2.2.1 "pc4" _ [] _ rfl (by decide)
  · exact h.2.2.2.2.2.2.2.2.2.1 "pc5" _ [] _ (mkRat 19999 1000) rfl rfl (by decide) (by decide)

/-- C2: a campaign Create with valid fields answers 409 exactly when some
existing campaign has the same supplier, the same name up to case, and an
overlapping date interval (`existing.start ≤ new.end` and
`new.start ≤ existing.end`); on 409 the collection is unchanged, and
without such an overlap the campaign is created with 201 and appended —
in particular a non-overlapping campaign with the same supplier and name
succeeds. -/
theorem C2_campaign_create_overlap_iff
    (newId : String) (b : Campaign.Body) (items : List Campaign.Rec)
    (sid nm rs re : String) (sd ed : ℤ) (dv : NumIn) (pct : ℚ)
    (hsid : b.supplier_id = some sid) (hsid' : sid ≠ "")
    (hnm : b.name = some nm) (hnm' : nm ≠ "")
    (hst : b.start_date = some ⟨rs, some sd⟩) (hrs : rs ≠ "")
    (hen : b.end_date = some ⟨re, some ed⟩) (hre : re ≠ "")
    (hdv : b.discount_percentage = some dv) (hpct : Campaign.validPercent dv = some pct)
    (hle : sd ≤ ed)
    (hwf : ∀ x ∈ items, (parseDate x.start_date).isSome ∧ (parseDate x.end_date).isSome) :
    ((Campaign.create newId b items).status = 409 ↔
      Campaign.overlapExists sid nm sd ed items) ∧
    ((Campaign.create newId b items).status = 409 →
      (Campaign.create newId b items).db = items) ∧
    (¬ Campaign.overlapExists sid nm sd ed items →
      ∃ novo, Campaign.create newId b items = ⟨201, some novo, items ++ [novo]⟩) := by
  have hn1 : ¬((!truthyS b.supplier_id || !truthyS b.name || !truthyD b.start_date ||
      !truthyD b.end_date || b.discount_percentage.isNone) = true) := by
    rw [hsid, hnm, hst, hen, hdv]
    simp [truthyS, truthyD, hsid', hnm', hrs, hre]
  have hps : parseDate (b.start_date.getD ⟨"", none⟩) = some sd := by rw [hst]; rfl
  have hpe : parseDate (b.end_date.getD ⟨"", none⟩) = some ed := by rw [hen]; rfl
  have hn2 : ¬(ed < sd) := not_lt.2 hle
  have hs3 : Campaign.validPercent (b.discount_percentage.getD (NumIn.jnum 0)) = some pct := by
    rw [hdv]; exact hpct
  have hkey : ((items.any fun x =>
      x.supplier_id == b.supplier_id.getD "" &&
      toLowerJS x.name == toLowerJS (b.name.getD "") &&
      jsLe (parseDate x.start_date) (some ed) &&
      jsLe (some sd) (parseDate x.end_date)) = true) ↔
      Campaign.overlapExists sid nm sd ed items := by
    rw [hsid, hnm, List.any_eq_true]
    constructor
    · rintro ⟨x, hx, hb⟩
      simp only [Option.getD_some, Bool.and_eq_true, beq_iff_eq, jsLe,
        decide_eq_true_eq] at hb
      obtain ⟨⟨⟨h1, h2⟩, h3⟩, h4⟩ := hb
      obtain ⟨hsome1, hsome2⟩ := hwf x hx
      obtain ⟨ts, hts⟩ := Option.isSome_iff_exists.1 hsome1
      obtain ⟨te, hte⟩ := Option.isSome_iff_exists.1 hsome2
      refine ⟨x, hx, h1, h2, ts, te, hts, hte, ?_, ?_⟩
      · rw [hts] at h3
        simpa using h3
      · rw [hte] at h4
        simpa using h4
    · rintro ⟨x, hx, h1, h2, ts, te, hts, hte, hle1, hle2⟩
      refine ⟨x, hx, ?_⟩
      simp only [Option.getD_some, Bool.and_eq_true, beq_iff_eq, jsLe,
        decide_eq_true_eq, hts, hte, Option.getD_some]
      exact ⟨⟨⟨h1, h2⟩, hle1⟩, hle2⟩
  by_cases hov : (items.any fun x =>
      x.supplier_id == b.supplier_id.getD "" &&
      toLowerJS x.name == toLowerJS (b.name.getD "") &&
      jsLe (parseDate x.start_date) (some ed) &&
      jsLe (some sd) (parseDate x.end_date)) = true
  · have hres : Campaign.create newId b items = ⟨409, none, items⟩ := by
      unfold Campaign.create
      rw [if_neg hn1, hps, hpe]
      dsimp only
      rw [if_neg hn2, hs3]
      dsimp only
      rw [if_pos hov]
    refine ⟨iff_of_true (by rw [hres]) (hkey.1 hov), fun _ => by rw [hres],
      fun hno => absurd (hkey.1 hov) hno⟩
  · have hres : ∃ novo, Campaign.create newId b items = ⟨201, some novo, items ++ [novo]⟩ := by
      unfold Campaign.create
      rw [if_neg hn1, hps, hpe]
      dsimp only
      rw [if_neg hn2, hs3]
      dsimp only
      rw [if_neg hov]
      exact ⟨_, rfl⟩
    obtain ⟨novo, hres⟩ := hres
    refine ⟨iff_of_false (by rw [hres]; simp) (fun hov2 => hov (hkey.2 hov2)), ?_,
      fun _ => ⟨novo, hres⟩⟩
    intro h409
    rw [hres] at h409
    simp at h409

/-- Witness for C2: a non-overlapping campaign for the same supplier and
(case-insensitively) same name against a one-campaign collection. -/
theorem C2_campaign_create_overlap_iff_witness :
    ((Campaign.create "cW"
        ⟨some "sup", some "BF", some ⟨"d1", some 10⟩, some ⟨"d2", some 20⟩, some (.jnum 15)⟩
        [⟨"c0", "sup", "bf", ⟨"x", some 30⟩, ⟨"y", some 40⟩, 10⟩]).status = 409 ↔
      Campaign.overlapExists "sup" "BF" 10 20
        [⟨"c0", "sup", "bf", ⟨"x", some 30⟩, ⟨"y", some 40⟩, 10⟩]) ∧
    ((Campaign.create "cW"
        ⟨some "sup", some "BF", some ⟨"d1", some 10⟩, some ⟨"d2", some 20⟩, some (.jnum 15)⟩
        [⟨"c0", "sup", "bf", ⟨"x", some 30⟩, ⟨"y", some 40⟩, 10⟩]).status = 409 →
      (Campaign.create "cW"
        ⟨some "sup", some "BF", some ⟨"d1", some 10⟩, some ⟨"d2", some 20⟩, some (.jnum 15)⟩
        [⟨"c0", "sup", "bf", ⟨"x", some 30⟩, ⟨"y", some 40⟩, 10⟩]).db
        = [⟨"c0", "sup", "bf", ⟨"x", some 30⟩, ⟨"y", some 40⟩, 10⟩]) ∧
    (¬ Campaign.overlapExists "sup" "BF" 10 20
        [⟨"c0", "sup", "bf", ⟨"x", some 30⟩, ⟨"y", some 40⟩, 10⟩] →
      ∃ novo, Campaign.create "cW"
          ⟨some "sup", some "BF", some ⟨"d1", some 10⟩, some ⟨"d2", some 20⟩, some (.jnum 15)⟩
          [⟨"c0", "sup", "bf", ⟨"x", some 30⟩, ⟨"y", some 40⟩, 10⟩]
        = ⟨201, some novo,
            [⟨"c0", "sup", "bf", ⟨"x", some 30⟩, ⟨"y", some 40⟩, 10⟩] ++ [novo]⟩) :=
  C2_campaign_create_overlap_iff "cW" _ _ "sup" "BF" "d1" "d2" 10 20 (.jnum 15) 15
    rfl (by decide) rfl (by decide) rfl (by decide) rfl (by decide) rfl (by decide)
    (by decide) (by decide)

/-- The supplier pair key is symmetric. -/
theorem sameKey_symm {a b : Supplier.Rec} (h : Supplier.sameKey a b) :
    Supplier.sameKey b a :=
  ⟨h.1.symm, h.2.symm⟩

/-- Replacing the (unique, by `Nodup` of the ids) record carrying `id`
with a record related to every other record preserves pairwise-ness. -/
theorem pairwise_setFirst {α : Type} {R : α → α → Prop}
    (hsymm : ∀ a b, R a b → R b a) (idOf : α → String) (id : String) (u : α)
    (l : List α) (hP : l.Pairwise R) (hnd : (l.map idOf).Nodup)
    (hkey : ∀ x ∈ l, idOf x ≠ id → R x u) :
    (setFirst (fun x => idOf x == id) u l).Pairwise R := by
  induction l with
  | nil => simp [setFirst]
  | cons a t ih =>
    rcases List.pairwise_cons.1 hP with ⟨ha, ht⟩
    rcases List.nodup_cons.1 hnd with ⟨hna, hnt⟩
    by_cases hp : (idOf a == id) = true
    · simp only [setFirst, hp, if_pos]
      refine List.pairwise_cons.2 ⟨?_, ht⟩
      intro y hy
      have hid : idOf a = id := by simpa using hp
      have hyid : idOf y ≠ id := by
        intro hcontra
        exact hna (by
          rw [hid, ← hcontra]
          exact List.mem_map_of_mem idOf hy)
      exact hsymm _ _ (hkey y (List.mem_cons_of_mem a hy) hyid)
    · simp only [setFirst, hp, Bool.false_eq_true, if_neg, not_false_iff]
      refine List.pairwise_cons.2 ⟨?_, ih ht hnt
        (fun x hx hxid => hkey x (List.mem_cons_of_mem a hx) hxid)⟩
      intro y hy
      rcases mem_setFirst hy with rfl | hyt
      · exact hkey a (List.mem_cons_self a t) (by simpa using hp)
      · exact ha y hyt

/-- C3: case-insensitive uniqueness of the supplier
`(supplier_name, contact_email)` pair is an invariant: Create, Update
(on a collection whose ids are distinct) and Delete preserve it, and a
valid Create whose pair matches an existing record up to case answers
409 without changing the collection. -/
theorem C3_supplier_pair_uniqueness_invariant :
    (∀ (newId : String) (b : Supplier.Body) (items : List Supplier.Rec),
      Supplier.UniquePairs items →
      Supplier.UniquePairs (Supplier.create newId b items).db) ∧
    (∀ (id : String) (b : Supplier.Body) (items : List Supplier.Rec),
      Supplier.UniquePairs items → (items.map Supplier.Rec.id).Nodup →
      Supplier.UniquePairs (Supplier.update id b items).db) ∧
    (∀ (id : String) (items : List Supplier.Rec),
      Supplier.UniquePairs items →
      Supplier.UniquePairs (Supplier.remove id items).db) ∧
    (∀ (newId : String) (b : Supplier.Body) (items : List Supplier.Rec) (sn em : String),
      b.supplier_name = some sn → sn ≠ "" →
      b.contact_email = some em → em ≠ "" → isEmail em = true →
      (∃ x ∈ items, toLowerJS x.supplier_name = toLowerJS sn ∧
        toLowerJS x.contact_email = toLowerJS em) →
      Supplier.create newId b items = ⟨409, none, items⟩) := by
  refine ⟨?_, ?_, ?_, ?_⟩
  · intro newId b items hP
    rcases Supplier.create_shape_supplier newId b items with ⟨_, hdb⟩ | ⟨novo, hres, hnovo, hchk⟩
    · rw [hdb]; exact hP
    · rw [hres]
      refine List.pairwise_append.2 ⟨hP, by simp, ?_⟩
      intro a ha c hc
      rcases List.mem_singleton.1 hc with rfl
      intro hsk
      rw [hnovo] at hsk
      have : (items.any fun x =>
          toLowerJS x.supplier_name == toLowerJS (b.supplier_name.getD "") &&
          toLowerJS x.contact_email == toLowerJS (b.contact_email.getD "")) = true :=
        List.any_eq_true.2 ⟨a, ha, by
          simp only [Bool.and_eq_true, beq_iff_eq]
          exact ⟨hsk.1, hsk.2⟩⟩
      rw [this] at hchk
      simp at hchk
  · intro id b items hP hnd
    rcases Supplier.update_shape_supplier id b items with ⟨_, hdb⟩ | ⟨old, u, hfind, hres, hu, hchk⟩
    · rw [hdb]; exact hP
    · have hold_id : old.id = id := by simpa using List.find?_some hfind
      have hold_mem : old ∈ items := List.mem_of_find?_eq_some hfind
      have hsymmR : ∀ a c : Supplier.Rec, ¬Supplier.sameKey a c → ¬Supplier.sameKey c a :=
        fun a c h hca => h (sameKey_symm hca)
      have hkey : ∀ x ∈ items, x.id ≠ id → ¬ Supplier.sameKey x u := by
        by_cases hsome : (b.supplier_name.isSome || b.contact_email.isSome) = true
        · have hany : (items.any fun x =>
              x.id != id &&
              toLowerJS x.supplier_name == toLowerJS (b.supplier_name.getD old.supplier_name) &&
              toLowerJS x.contact_email == toLowerJS (b.contact_email.getD old.contact_email))
              = false := by
            rw [hsome] at hchk
            simpa using hchk
          intro x hx hxid hsk
          rw [hu] at hsk
          have : (items.any fun x =>
              x.id != id &&
              toLowerJS x.supplier_name == toLowerJS (b.supplier_name.getD old.supplier_name) &&
              toLowerJS x.contact_email == toLowerJS (b.contact_email.getD old.contact_email))
              = true := by
            refine List.any_eq_true.2 ⟨x, hx, ?_⟩
            simp only [Bool.and_eq_true, bne_iff_ne, beq_iff_eq]
            exact ⟨⟨hxid, hsk.1⟩, hsk.2⟩
          rw [this] at hany
          simp at hany
        · have h1 : b.supplier_name = none := by
            cases hbs : b.supplier_name with
            | none => rfl
            | some s => exact absurd (by simp [hbs]) hsome
          have h2 : b.contact_email = none := by
            cases hbs : b.contact_email with
            | none => rfl
            | some s => exact absurd (by simp [hbs]) hsome
          intro x hx hxid hsk
          rw [hu, h1, h2] at hsk
          have hxo : x ≠ old := fun he => hxid (by rw [he, hold_id])
          exact (List.Pairwise.forall hsymmR hP hx hold_mem hxo) hsk
      have := pairwise_setFirst hsymmR Supplier.Rec.id id u items hP hnd hkey
      rw [hres]
      exact this
  · intro id items hP
    rcases Supplier.remove_shape_supplier id items with ⟨_, hdb, _⟩ | ⟨_, hdb⟩
    · rw [hdb]; exact hP
    · rw [hdb]
      exact hP.sublist (removeFirst_sublist _ items)
  · intro newId b items sn em hsn hsn' hem hem' hemail hdup
    have hn1 : ¬((!truthyS b.supplier_name || !truthyS b.contact_email) = true) := by
      rw [hsn, hem]
      simp [truthyS, hsn', hem']
    have hn2 : ¬((!isEmail (b.contact_email.getD "")) = true) := by
      rw [hem]
      simp [hemail]
    have hpos : (items.any fun x =>
        toLowerJS x.supplier_name == toLowerJS (b.supplier_name.getD "") &&
        toLowerJS x.contact_email == toLowerJS (b.contact_email.getD "")) = true := by
      rw [hsn, hem]
      obtain ⟨x, hx, hk1, hk2⟩ := hdup
      refine List.any_eq_true.2 ⟨x, hx, ?_⟩
      simp only [Option.getD_some, Bool.and_eq_true, beq_iff_eq]
      exact ⟨hk1, hk2⟩
    unfold Supplier.create
    rw [if_neg hn1, if_neg hn2, if_pos hpos]

/-- Witness for C3 at concrete collections: a fresh pair is appended and
stays unique, a rename keeps uniqueness, deletion keeps uniqueness, and a
case-variant duplicate pair is rejected with 409. -/
theorem C3_supplier_pair_uniqueness_invariant_witness :
    Supplier.UniquePairs (Supplier.create "new"
      ⟨some "Gamma", none, some "g@h.com", none, none⟩
      [⟨"s1", "Acme", "tech", "a@b.com", "123", "on"⟩]).db ∧
    Supplier.UniquePairs (Supplier.update "s1"
      ⟨some "Delta", none, none, none, none⟩
      [⟨"s1", "Acme", "tech", "a@b.com", "123", "on"⟩,
       ⟨"s2", "Beta", "food", "c@d.com", "456", "on"⟩]).db ∧
    Supplier.UniquePairs (Supplier.remove "s1"
      [⟨"s1", "Acme", "tech", "a@b.com", "123", "on"⟩]).db ∧
    Supplier.create "new" ⟨some "ACME", none, some "A@B.com", none, none⟩
      [⟨"s1", "Acme", "tech", "a@b.com", "123", "on"⟩] =
      ⟨409, none, [⟨"s1", "Acme", "tech", "a@b.com", "123", "on"⟩]⟩ := by
  refine ⟨?_, ?_, ?_, ?_⟩
  · exact C3_supplier_pair_uniqueness_invariant.1 "new" _ _
      (by unfold Supplier.UniquePairs; decide)
  · exact C3_supplier_pair_uniqueness_invariant.2.1 "s1" _ _
      (by unfold Supplier.UniquePairs; decide) (by decide)
  · exact C3_supplier_pair_uniqueness_invariant.2.2.1 "s1" _
      (by unfold Supplier.UniquePairs; decide)
  · exact C3_supplier_pair_uniqueness_invariant.2.2.2 "new" _ _ "ACME" "A@B.com"
      rfl (by decide) rfl (by decide) (by decide) (by decide)

end CentralCompras
